import Mathlib

/-!
Verification of the patho-record item-return lifecycle

A shallow embedding of the core logic of `src/app.py`, `src/models.py` and
`src/validators.py` of the patho-record repository, together with proofs and
refutations of the specification claims about it.

Modelling conventions:
* timestamps are `Nat` (seconds of UTC time); `datetime.utcnow()` becomes an
  explicit `now : Nat` argument threaded through each request handler;
* JSON request payloads are association lists `List (String × JVal)` over a
  small dynamic value type `JVal` mirroring the payload shapes the handlers
  actually inspect (strings, integers, booleans, null);
* the database session is an explicit `AppDB` state; a handler returns
  `Except ApiError (AppDB × ...)`, where `ApiError` distinguishes a caught
  `ValidationError` (HTTP 400 with the error message), other explicit 400
  responses, 404, 403, and an uncaught Python exception escaping the handler
  (`pyFault`, which Flask would turn into a 500 response);
* a handler that returns `.error` leaves the database unchanged, matching the
  code: the SQLAlchemy session is only committed on the success paths, and an
  uncommitted session is discarded at the end of the request.
-/

namespace PathoRecord

/-- A dynamic JSON-like value, as found in a request payload. -/
inductive JVal where
  | str : String → JVal
  | int : Int → JVal
  | bool : Bool → JVal
  | null : JVal
deriving DecidableEq, Repr

/-- Python truthiness of a `JVal` (`bool(x)` / `if x:`). -/
def pyTruthy : JVal → Bool
  | .str s => decide (s ≠ "")
  | .int n => decide (n ≠ 0)
  | .bool b => b
  | .null => false

/-- Embeds `d.get(k)` on a request dict: the first binding of the key, if any. -/
def dGet (d : List (String × JVal)) (k : String) : Option JVal :=
  (d.find? (fun p => p.1 = k)).map Prod.snd

/-- Embeds `d.get(k, default)`: key lookup with a default for an absent key. -/
def dGetD (d : List (String × JVal)) (k : String) (dflt : JVal) : JVal :=
  (dGet d k).getD dflt

/-- Embeds `k in d` on a request dict. -/
def dHas (d : List (String × JVal)) (k : String) : Bool :=
  (dGet d k).isSome

/-- Embeds `d[k]` for a key known to be present (`.null` stands in otherwise). -/
def dGetJ (d : List (String × JVal)) (k : String) : JVal :=
  dGetD d k .null

/-- Characters removed by Python `str.strip()` (the ASCII whitespace set). -/
def isPyWhitespace (c : Char) : Bool :=
  c = ' ' || c = '\t' || c = '\n' || c = '\x0d' || c = '\x0b' || c = '\x0c'

/-- Python `str.strip()`: drop leading and trailing whitespace. -/
def pyStrip (s : String) : String :=
  ⟨((s.data.dropWhile isPyWhitespace).reverse.dropWhile isPyWhitespace).reverse⟩

/-- Parse a nonempty run of ASCII digits as a natural number. -/
def parseDigits : List Char → Option Nat
  | [] => none
  | cs => cs.foldl (fun acc c => match acc with
      | none => none
      | some n => if c.isDigit then some (n * 10 + (c.toNat - 48)) else none)
      (some 0)

/-- Python `int(s)` on a string: optional surrounding whitespace, optional
sign, then digits; anything else raises `ValueError`, modelled as `none`. -/
def pyIntOfString (s : String) : Option Int :=
  match (pyStrip s).data with
  | '-' :: cs => (parseDigits cs).map (fun n => -(n : Int))
  | '+' :: cs => (parseDigits cs).map (fun n => (n : Int))
  | cs => (parseDigits cs).map (fun n => (n : Int))

/-- Python `int(value)` over a dynamic value; `none` models the `ValueError`
or `TypeError` caught by `validate_integer`. -/
def pyInt : JVal → Option Int
  | .int n => some n
  | .bool b => some (if b then 1 else 0)
  | .str s => pyIntOfString s
  | .null => none

/-! ## Validation layer (`src/validators.py`) -/

/-- Embeds `validators.ValidationError`: a message plus the offending field. -/
structure ValidationErr where
  message : String
  field : Option String
deriving DecidableEq, Repr

/-- Embeds `validators.validate_string` (with its default `allow_none=True`, the
only form the call sites use): trims whitespace, then checks presence and
the character-count bound. `ok none` models the Python `None` result. -/
def validate_string (value : JVal) (field_name : String) (max_length : Nat)
    (required : Bool) : Except ValidationErr (Option String) :=
  match value with
  | .null =>
      if required then .error ⟨field_name ++ "を入力してください", some field_name⟩
      else .ok none
  | .str s =>
      let s := pyStrip s
      if s = "" then
        if required then .error ⟨field_name ++ "を入力してください", some field_name⟩
        else .ok none
      else if s.length > max_length then
        .error ⟨field_name ++ "は" ++ toString max_length ++
          "文字以内で入力してください（現在" ++ toString s.length ++ "文字）", some field_name⟩
      else .ok (some s)
  | _ => .error ⟨field_name ++ "は文字列で入力してください", some field_name⟩

/-- Embeds `validators.validate_integer`. -/
def validate_integer (value : JVal) (field_name : String) (min_val : Int)
    (max_val : Option Int) (dflt : Int) : Except ValidationErr Int :=
  match value with
  | .null => .ok dflt
  | v =>
      match pyInt v with
      | none => .error ⟨field_name ++ "は数値で入力してください", some field_name⟩
      | some n =>
          if n < min_val then
            .error ⟨field_name ++ "は" ++ toString min_val ++ "以上で入力してください", some field_name⟩
          else
            match max_val with
            | some m =>
                if n > m then
                  .error ⟨field_name ++ "は" ++ toString m ++ "以下で入力してください", some field_name⟩
                else .ok n
            | none => .ok n

/-- The ASCII control characters stripped from barcode and patient id:
`[\x00-\x1f\x7f]`. -/
def isCtrlAll (c : Char) : Bool :=
  decide (c.toNat ≤ 0x1f) || decide (c.toNat = 0x7f)

/-- The control characters stripped from notes:
`[\x00-\x08\x0b\x0c\x0e-\x1f\x7f]` (tab, LF and CR are kept). -/
def isCtrlNotes (c : Char) : Bool :=
  decide (c.toNat ≤ 0x08) || decide (c.toNat = 0x0b) || decide (c.toNat = 0x0c) ||
    (decide (0x0e ≤ c.toNat) && decide (c.toNat ≤ 0x1f)) || decide (c.toNat = 0x7f)

/-- Embeds `re.sub` of a character class with the empty string: keep the characters
the class does not match. -/
def stripChars (bad : Char → Bool) (s : String) : String :=
  ⟨s.data.filter (fun c => !bad c)⟩

/-- Embeds `validators.validate_barcode`. -/
def validate_barcode (value : JVal) (required : Bool) :
    Except ValidationErr (Option String) :=
  match validate_string value "バーコード" 100 required with
  | .error e => .error e
  | .ok none => .ok none
  | .ok (some s) => .ok (some (stripChars isCtrlAll s))

/-- Embeds `validators.validate_patient_id`. -/
def validate_patient_id (value : JVal) : Except ValidationErr (Option String) :=
  match validate_string value "患者ID" 50 false with
  | .error e => .error e
  | .ok none => .ok none
  | .ok (some s) => .ok (some (stripChars isCtrlAll s))

/-- Embeds `validators.validate_notes`. -/
def validate_notes (value : JVal) : Except ValidationErr (Option String) :=
  match validate_string value "メモ" 500 false with
  | .error e => .error e
  | .ok none => .ok none
  | .ok (some s) => .ok (some (stripChars isCtrlNotes s))

/-- Embeds `validators.validate_user_name`. -/
def validate_user_name (value : JVal) (required : Bool) :
    Except ValidationErr (Option String) :=
  validate_string value "ユーザー名" 50 required

/-- Embeds `validators.validate_password`. -/
def validate_password (value : JVal) : Except ValidationErr (Option String) :=
  validate_string value "パスワード" 100 false

/-- Embeds `validators.validate_quantity`: bounds `0..9999`. -/
def validate_quantity (value : JVal) (field_name : String) (dflt : Int) :
    Except ValidationErr Int :=
  validate_integer value field_name 0 (some 9999) dflt

/-- Embeds `validators.validate_return_days`: bounds `1..365`, default 14. -/
def validate_return_days (value : JVal) : Except ValidationErr Int :=
  validate_integer value "返却期限日数" 1 (some 365) 14

/-- Truncation of a single sanitized value: strings are capped at 10000
characters, every other value passes through. -/
def sanVal : JVal → JVal
  | .str s => .str (⟨s.data.take 10000⟩ : String)
  | v => v

/-- Embeds `validators.sanitize_input`: truncate every string value to 10000
characters (the dict shape itself is kept). -/
def sanitize_input (d : List (String × JVal)) : List (String × JVal) :=
  d.map (fun p => (p.1, sanVal p.2))

/-! ## Data model (`src/models.py`) -/

/-- Embeds `models.ItemLog`: one scan record. Timestamps are `Nat` seconds;
`Option` fields are nullable columns. The `preliminary_report` pair exists
in the schema but is touched by no handler, so it is omitted here. -/
structure ItemLog where
  id : Nat
  barcode : Option String
  patient_id : Option String
  quantity : Int
  scanned_by_id : Nat
  scanned_at : Nat
  expected_return_date : Option Nat
  returned : Bool
  returned_at : Option Nat
  block_quantity : Int
  block_returned_at : Option Nat
  slide_quantity : Int
  slide_returned_at : Option Nat
  completed : Bool
  completed_at : Option Nat
  notes : Option String
  deleted_at : Option Nat
deriving DecidableEq, Repr

/-- Embeds `models.User`. -/
structure UserRec where
  id : Nat
  name : String
  password_hash : Option String
  is_admin : Bool
  is_active : Bool
  created_at : Nat
deriving DecidableEq, Repr

/-- The password hashing primitive (`werkzeug.generate_password_hash`) is an
external collaborator; only `is none / is some` is ever observed by the
handlers, so it is modelled as the identity embedding. -/
def generate_password_hash (p : String) : String := p

/-- Embeds `User.to_dict()`: the serialized user snapshot (the hash itself is not
serialized, only `has_password`). -/
structure UserDict where
  id : Nat
  name : String
  is_admin : Bool
  has_password : Bool
  created_at : Nat
  is_active : Bool
deriving DecidableEq, Repr

/-- Embeds `User.to_dict`. -/
def UserRec.to_dict (u : UserRec) : UserDict :=
  ⟨u.id, u.name, u.is_admin, u.password_hash.isSome, u.created_at, u.is_active⟩

/-- A serialized entity snapshot stored in an audit entry (`json.dumps` of
`to_dict()`; serialization is modelled by the entity value itself, which the
dict determines). -/
inductive Snapshot where
  | item : ItemLog → Snapshot
  | user : UserDict → Snapshot
deriving DecidableEq, Repr

/-- Embeds `models.AuditLog`: one audit trail entry. -/
structure AuditEntry where
  action : String
  table_name : String
  record_id : Nat
  user_id : Option Nat
  old_value : Option Snapshot
  new_value : Option Snapshot
deriving DecidableEq, Repr

/-- The database state: the three tables plus autoincrement counters and the
resolved `return_days` application setting (the `AppSettings` row read by
`scan`). -/
structure AppDB where
  items : List ItemLog
  users : List UserRec
  audits : List AuditEntry
  next_item_id : Nat
  next_user_id : Nat
  return_days : Nat
deriving DecidableEq, Repr

/-- The structured error outcomes a handler can produce. `pyFault` is an
uncaught Python exception escaping the handler (Flask turns it into an
HTTP 500); everything else is an explicit structured response. -/
inductive ApiError where
  | validation (message : String)
  | badRequest (message : String)
  | notFound
  | forbidden (message : String)
  | pyFault (exn : String)
deriving DecidableEq, Repr

/-- Embeds `app.create_audit_log`: append one audit entry (the secondary file log
stream has no observable effect on the state and is not modelled). -/
def create_audit_log (db : AppDB) (userId : Option Nat) (action table : String)
    (recId : Nat) (oldV newV : Option Snapshot) : AppDB :=
  { db with audits := db.audits ++ [⟨action, table, recId, userId, oldV, newV⟩] }

/-- Primary-key lookup (`ItemLog.query.get(item_id)`). -/
def findItem (items : List ItemLog) (itemId : Nat) : Option ItemLog :=
  items.find? (fun r => r.id == itemId)

/-- Replace the row with the given primary key. -/
def replaceItem (items : List ItemLog) (itemId : Nat) (item' : ItemLog) :
    List ItemLog :=
  items.map (fun r => if r.id == itemId then item' else r)

/-- Primary-key lookup (`User.query.get(user_id)`). -/
def findUser (users : List UserRec) (userId : Nat) : Option UserRec :=
  users.find? (fun u => u.id == userId)

/-- Replace the user row with the given primary key. -/
def replaceUser (users : List UserRec) (userId : Nat) (u' : UserRec) :
    List UserRec :=
  users.map (fun u => if u.id == userId then u' else u)

/-! ## Item handlers (`src/app.py`) -/

/-- Python truthiness of an optional string (`if not barcode`). -/
def optStrFalsy : Option String → Bool
  | none => true
  | some s => decide (s = "")

/-- Embeds `app.scan` (`POST /scan`): validate, require barcode or notes, require a
positive quantity, create the row and its CREATE audit entry. `now` is
`datetime.utcnow()`; `userId` the session user. Note that the freshly created
row leaves all four paired timestamps at their `None` column defaults. -/
def scan (db : AppDB) (userId : Nat) (now : Nat)
    (body : List (String × JVal)) : Except ApiError (AppDB × ItemLog) :=
  let data := sanitize_input body
  match validate_barcode (dGetJ data "barcode") false with
  | .error e => .error (.validation e.message)
  | .ok barcode =>
  match validate_patient_id (dGetJ data "patient_id") with
  | .error e => .error (.validation e.message)
  | .ok patient_id =>
  match validate_notes (dGetJ data "notes") with
  | .error e => .error (.validation e.message)
  | .ok notes =>
  match validate_quantity (dGetD data "quantity" (.int 1)) "個数" 1 with
  | .error e => .error (.validation e.message)
  | .ok quantity =>
  match validate_quantity (dGetD data "block_quantity" (.int 0)) "ブロック数" 0 with
  | .error e => .error (.validation e.message)
  | .ok block_quantity =>
  match validate_quantity (dGetD data "slide_quantity" (.int 0)) "スライド数" 0 with
  | .error e => .error (.validation e.message)
  | .ok slide_quantity =>
  let returned := pyTruthy (dGetD data "returned" (.bool false))
  if optStrFalsy barcode && optStrFalsy notes then
    .error (.badRequest "バーコードまたはメモを入力してください")
  else if quantity < 1 then
    .error (.badRequest "個数は1以上を指定してください")
  else
    let expected := now + db.return_days * 86400
    let item : ItemLog :=
      { id := db.next_item_id
        barcode := barcode
        patient_id := patient_id
        quantity := quantity
        scanned_by_id := userId
        scanned_at := now
        expected_return_date := some expected
        returned := returned
        returned_at := none
        block_quantity := block_quantity
        block_returned_at := none
        slide_quantity := slide_quantity
        slide_returned_at := none
        completed := false
        completed_at := none
        notes := notes
        deleted_at := none }
    let db' := { db with items := db.items ++ [item],
                         next_item_id := db.next_item_id + 1 }
    .ok (create_audit_log db' (some userId) "CREATE" "item_logs" item.id
          none (some (.item item)), item)

/-- Short-circuiting sequencing of handler steps. -/
def ebind {α β : Type} (x : Except ApiError α) (f : α → Except ApiError β) :
    Except ApiError β :=
  match x with
  | .error e => .error e
  | .ok a => f a

/-- Embeds `update_item`, `if "quantity" in data` branch. -/
def applyQuantity (data : List (String × JVal)) (item : ItemLog) :
    Except ApiError ItemLog :=
  if dHas data "quantity" then
    match validate_quantity (dGetJ data "quantity") "個数" 1 with
    | .error e => .error (.validation e.message)
    | .ok q => .ok { item with quantity := q }
  else .ok item

/-- The `returned` assignment block of `update_item`: the timestamp is set
only on the inactive-to-active transition and cleared whenever the new
flag is falsy; `nv` is `bool(data["returned"])`. -/
def setReturned (now : Nat) (nv : Bool) (item : ItemLog) : ItemLog :=
  if nv && !item.returned then
    { item with returned := nv, returned_at := some now }
  else if !nv then
    { item with returned := nv, returned_at := none }
  else
    { item with returned := nv }

/-- Embeds `update_item`, `if "returned" in data` branch. -/
def applyReturned (now : Nat) (data : List (String × JVal)) (item : ItemLog) :
    Except ApiError ItemLog :=
  if dHas data "returned" then
    .ok (setReturned now (pyTruthy (dGetJ data "returned")) item)
  else .ok item

/-- The `block_quantity` assignment block of `update_item`; `nq` is the
validated new quantity. -/
def setBlock (now : Nat) (nq : Int) (item : ItemLog) : ItemLog :=
  if 0 < nq ∧ item.block_quantity = 0 then
    { item with block_quantity := nq, block_returned_at := some now }
  else if nq = 0 then
    { item with block_quantity := nq, block_returned_at := none }
  else
    { item with block_quantity := nq }

/-- Embeds `update_item`, `if "block_quantity" in data` branch. -/
def applyBlockQuantity (now : Nat) (data : List (String × JVal))
    (item : ItemLog) : Except ApiError ItemLog :=
  if dHas data "block_quantity" then
    match validate_quantity (dGetJ data "block_quantity") "ブロック数" 0 with
    | .error e => .error (.validation e.message)
    | .ok nq => .ok (setBlock now nq item)
  else .ok item

/-- The `slide_quantity` assignment block of `update_item`. -/
def setSlide (now : Nat) (nq : Int) (item : ItemLog) : ItemLog :=
  if 0 < nq ∧ item.slide_quantity = 0 then
    { item with slide_quantity := nq, slide_returned_at := some now }
  else if nq = 0 then
    { item with slide_quantity := nq, slide_returned_at := none }
  else
    { item with slide_quantity := nq }

/-- Embeds `update_item`, `if "slide_quantity" in data` branch. -/
def applySlideQuantity (now : Nat) (data : List (String × JVal))
    (item : ItemLog) : Except ApiError ItemLog :=
  if dHas data "slide_quantity" then
    match validate_quantity (dGetJ data "slide_quantity") "スライド数" 0 with
    | .error e => .error (.validation e.message)
    | .ok nq => .ok (setSlide now nq item)
  else .ok item

/-- Embeds `update_item`, `if "notes" in data` branch. -/
def applyNotes (data : List (String × JVal)) (item : ItemLog) :
    Except ApiError ItemLog :=
  if dHas data "notes" then
    match validate_notes (dGetJ data "notes") with
    | .error e => .error (.validation e.message)
    | .ok n => .ok { item with notes := n }
  else .ok item

/-- Embeds `datetime.fromisoformat`, modelled on its documented grammar restricted
to the shapes a date input field produces: `YYYY-MM-DD` optionally followed
by `THH:MM:SS` (or with a space separator). Any other string raises
`ValueError`, modelled as `none`. The returned instant uses the same
second-count timeline as the rest of the model. -/
def fromisoformat (s : String) : Option Nat :=
  match s.data with
  | [y1, y2, y3, y4, '-', m1, m2, '-', d1, d2] =>
      match parseDigits [y1, y2, y3, y4], parseDigits [m1, m2], parseDigits [d1, d2] with
      | some y, some m, some d =>
          if 1 ≤ m ∧ m ≤ 12 ∧ 1 ≤ d ∧ d ≤ 31 then
            some (((y * 12 + m) * 31 + d) * 86400)
          else none
      | _, _, _ => none
  | [y1, y2, y3, y4, '-', m1, m2, '-', d1, d2, sep, h1, h2, ':', mi1, mi2, ':', s1, s2] =>
      match parseDigits [y1, y2, y3, y4], parseDigits [m1, m2], parseDigits [d1, d2],
            parseDigits [h1, h2], parseDigits [mi1, mi2], parseDigits [s1, s2] with
      | some y, some m, some d, some hh, some mm, some ss =>
          if (sep = 'T' ∨ sep = ' ') ∧ 1 ≤ m ∧ m ≤ 12 ∧ 1 ≤ d ∧ d ≤ 31 ∧
              hh ≤ 23 ∧ mm ≤ 59 ∧ ss ≤ 59 then
            some (((y * 12 + m) * 31 + d) * 86400 + hh * 3600 + mm * 60 + ss)
          else none
      | _, _, _, _, _, _ => none
  | _ => none

/-- Embeds `update_item`, `if "expected_return_date" in data` block. This block sits
outside the handler `try/except ValidationError` block, so a malformed date makes
`datetime.fromisoformat` raise an uncaught `ValueError` (`TypeError` for a
truthy non-string). Only an empty/falsy value clears the column. -/
def applyExpectedReturnDate (data : List (String × JVal)) (item : ItemLog) :
    Except ApiError ItemLog :=
  if dHas data "expected_return_date" then
    let v := dGetJ data "expected_return_date"
    if pyTruthy v then
      match v with
      | .str s =>
          match fromisoformat s with
          | some t => .ok { item with expected_return_date := some t }
          | none => .error (.pyFault "ValueError")
      | _ => .error (.pyFault "TypeError")
    else .ok { item with expected_return_date := none }
  else .ok item

/-- The `completed` assignment block of `update_item`. -/
def setCompleted (now : Nat) (nv : Bool) (item : ItemLog) : ItemLog :=
  if nv && !item.completed then
    { item with completed := nv, completed_at := some now }
  else if !nv then
    { item with completed := nv, completed_at := none }
  else
    { item with completed := nv }

/-- Embeds `update_item`, `if "completed" in data` block. -/
def applyCompleted (now : Nat) (data : List (String × JVal)) (item : ItemLog) :
    Except ApiError ItemLog :=
  if dHas data "completed" then
    .ok (setCompleted now (pyTruthy (dGetJ data "completed")) item)
  else .ok item

/-- The field-application core of `app.update_item`, in source order:
quantity, returned, block, slide, notes (inside the `try`), then
expected-return-date and completed. An error discards the whole update, as
the uncommitted session is. -/
def updateItemFields (item : ItemLog) (now : Nat)
    (data : List (String × JVal)) : Except ApiError ItemLog :=
  ebind (applyQuantity data item) fun i1 =>
  ebind (applyReturned now data i1) fun i2 =>
  ebind (applyBlockQuantity now data i2) fun i3 =>
  ebind (applySlideQuantity now data i3) fun i4 =>
  ebind (applyNotes data i4) fun i5 =>
  ebind (applyExpectedReturnDate data i5) fun i6 =>
  applyCompleted now data i6

/-- Embeds `app.update_item` (`POST /update/<id>`): 404 when the id is absent,
otherwise apply the supplied fields, commit, and append the UPDATE audit
entry carrying both snapshots. -/
def update_item (db : AppDB) (userId : Nat) (itemId : Nat) (now : Nat)
    (body : List (String × JVal)) : Except ApiError (AppDB × ItemLog) :=
  match findItem db.items itemId with
  | none => .error .notFound
  | some item =>
      let data := sanitize_input body
      match updateItemFields item now data with
      | .error e => .error e
      | .ok item' =>
          let db' := { db with items := replaceItem db.items itemId item' }
          .ok (create_audit_log db' (some userId) "UPDATE" "item_logs" item.id
                (some (.item item)) (some (.item item')), item')

/-- Embeds `app.delete_item` (`POST /delete/<id>`): soft delete. Sets only
`deleted_at` and appends a DELETE audit entry carrying the old snapshot
only. -/
def delete_item (db : AppDB) (userId : Nat) (itemId : Nat) (now : Nat) :
    Except ApiError AppDB :=
  match findItem db.items itemId with
  | none => .error .notFound
  | some item =>
      let item' := { item with deleted_at := some now }
      let db' := { db with items := replaceItem db.items itemId item' }
      .ok (create_audit_log db' (some userId) "DELETE" "item_logs" item.id
            (some (.item item)) none)

/-- Embeds `app.get_item` (`GET /item/<id>`). -/
def get_item (db : AppDB) (itemId : Nat) : Except ApiError ItemLog :=
  match findItem db.items itemId with
  | none => .error .notFound
  | some item => .ok item

/-! ## User handlers (`src/app.py`) -/

/-- Embeds `app.register_user` (`POST /register`, the login-screen registration):
strip the name, reject empty or duplicate names, create a passwordless
non-admin user and commit. The handler calls `create_audit_log` nowhere:
no audit entry is produced. A non-string name value would make `.strip()`
raise `AttributeError`. -/
def register_user (db : AppDB) (now : Nat) (body : List (String × JVal)) :
    Except ApiError (AppDB × UserRec) :=
  match dGetD body "name" (.str "") with
  | .str s =>
      let name := pyStrip s
      if name = "" then .error (.badRequest "名前を入力してください")
      else if db.users.any (fun u => u.name == name) then
        .error (.badRequest "この名前は既に使用されています")
      else
        let user : UserRec :=
          { id := db.next_user_id, name := name, password_hash := none,
            is_admin := false, is_active := true, created_at := now }
        .ok ({ db with users := db.users ++ [user],
                       next_user_id := db.next_user_id + 1 }, user)
  | _ => .error (.pyFault "AttributeError")

/-- Embeds `app.create_user` (`POST /users`): validated creation with a CREATE
audit entry carrying the new snapshot only. -/
def create_user (db : AppDB) (callerId : Option Nat) (now : Nat)
    (body : List (String × JVal)) : Except ApiError (AppDB × UserRec) :=
  let data := sanitize_input body
  match validate_user_name (dGetD data "name" .null) true with
  | .error e => .error (.validation e.message)
  | .ok nameOpt =>
  match validate_password (dGetD data "password" .null) with
  | .error e => .error (.validation e.message)
  | .ok password =>
      let name := nameOpt.getD ""
      let is_admin := pyTruthy (dGetD data "is_admin" (.bool false))
      if db.users.any (fun u => u.name == name) then
        .error (.badRequest "この名前は既に使用されています")
      else
        let user : UserRec :=
          { id := db.next_user_id, name := name,
            password_hash := password.map generate_password_hash,
            is_admin := is_admin, is_active := true, created_at := now }
        let db' := { db with users := db.users ++ [user],
                             next_user_id := db.next_user_id + 1 }
        .ok (create_audit_log db' callerId "CREATE" "users" user.id
              none (some (.user user.to_dict)), user)

/-- Embeds `update_user`, `if "name" in data` branch (validation plus the
uniqueness check against other user ids). -/
def applyUserName (users : List UserRec) (userId : Nat)
    (data : List (String × JVal)) (u : UserRec) : Except ApiError UserRec :=
  if dHas data "name" then
    match validate_user_name (dGetD data "name" .null) true with
    | .error e => .error (.validation e.message)
    | .ok nameOpt =>
        let name := nameOpt.getD ""
        if users.any (fun v => v.name == name && v.id != userId) then
          .error (.badRequest "この名前は既に使用されています")
        else .ok { u with name := name }
  else .ok u

/-- Embeds `update_user`, `if "is_active" in data` branch: no guard of any kind —
in particular no last-active-admin check. -/
def applyIsActive (data : List (String × JVal)) (u : UserRec) :
    Except ApiError UserRec :=
  if dHas data "is_active" then .ok { u with is_active := pyTruthy (dGetJ data "is_active") }
  else .ok u

/-- Embeds `update_user`, `if "is_admin" in data` branch: likewise unguarded. -/
def applyIsAdmin (data : List (String × JVal)) (u : UserRec) :
    Except ApiError UserRec :=
  if dHas data "is_admin" then .ok { u with is_admin := pyTruthy (dGetJ data "is_admin") }
  else .ok u

/-- Embeds `update_user`, `if "password" in data` branch. -/
def applyPassword (data : List (String × JVal)) (u : UserRec) :
    Except ApiError UserRec :=
  if dHas data "password" then
    match validate_password (dGetD data "password" .null) with
    | .error e => .error (.validation e.message)
    | .ok (some p) => .ok { u with password_hash := some (generate_password_hash p) }
    | .ok none =>
        if pyTruthy (dGetD data "clear_password" .null) then
          .ok { u with password_hash := none }
        else .ok u
  else .ok u

/-- Embeds `app.update_user` (`POST /users/<id>`): apply the supplied fields,
commit, and append an UPDATE audit entry with both snapshots. -/
def update_user (db : AppDB) (callerId : Option Nat) (userId : Nat)
    (body : List (String × JVal)) : Except ApiError (AppDB × UserRec) :=
  match findUser db.users userId with
  | none => .error .notFound
  | some user =>
      let data := sanitize_input body
      match ebind (applyUserName db.users userId data user) fun u1 =>
            ebind (applyIsActive data u1) fun u2 =>
            ebind (applyIsAdmin data u2) fun u3 =>
            applyPassword data u3 with
      | .error e => .error e
      | .ok user' =>
          let db' := { db with users := replaceUser db.users userId user' }
          .ok (create_audit_log db' callerId "UPDATE" "users" user.id
                (some (.user user.to_dict)) (some (.user user'.to_dict)), user')

/-- Embeds `app.delete_user` (`POST /users/<id>/delete`). The first statement of the handler evaluates `current_user`, a name defined nowhere in `app.py`
(`flask_login` is not imported and no local binding exists), so every call
raises `NameError` before any of the remaining handler logic — admin check,
self-check, last-admin guard, soft delete — can run. -/
def delete_user (_db : AppDB) (_callerId : Nat) (_userId : Nat) :
    Except ApiError AppDB :=
  .error (.pyFault "NameError")

/-- The number of users with `is_admin` and `is_active` both set (the count
the unreachable guard in `delete_user` would take). -/
def countActiveAdmins (db : AppDB) : Nat :=
  (db.users.filter (fun u => u.is_admin && u.is_active)).length

/-! ## History query engine and CSV export (`src/app.py`) -/

/-- Midnight of the current UTC day (`utcnow().replace(hour=0, ...)`) on the
second-count timeline. -/
def startOfDay (now : Nat) : Nat := now - now % 86400

/-- Embeds `expected_return_date < utcnow()` as SQL evaluates it: a NULL column
never satisfies the comparison. -/
def erdBefore (r : ItemLog) (now : Nat) : Bool :=
  match r.expected_return_date with
  | some d => decide (d < now)
  | none => false

/-- Substring containment on a nullable column (`column.contains(term)`):
a NULL column matches nothing. -/
def optContains (o : Option String) (term : String) : Bool :=
  match o with
  | none => false
  | some s => decide (term.data <:+: s.data)

/-- The filter branch ladder of `app.history` (applied after the base
`deleted_at IS NULL` predicate); an unknown filter name adds nothing. -/
def historyFilter (now : Nat) (filter_type : String) (l : List ItemLog) :
    List ItemLog :=
  if filter_type = "unreturned" then l.filter (fun r => !r.completed)
  else if filter_type = "overdue" then
    l.filter (fun r => !r.completed && erdBefore r now)
  else if filter_type = "today" then
    l.filter (fun r => decide (startOfDay now ≤ r.scanned_at))
  else if filter_type = "yesterday" then
    l.filter (fun r => decide (startOfDay now - 86400 ≤ r.scanned_at) &&
      decide (r.scanned_at < startOfDay now))
  else if filter_type = "today_incomplete" then
    l.filter (fun r => decide (startOfDay now ≤ r.scanned_at) && !r.completed)
  else if filter_type = "yesterday_incomplete" then
    l.filter (fun r => decide (startOfDay now - 86400 ≤ r.scanned_at) &&
      decide (r.scanned_at < startOfDay now) && !r.completed)
  else if filter_type = "incomplete" then l.filter (fun r => !r.completed)
  else l

/-- The search predicate of `app.history`: barcode OR patient id OR notes
containment. -/
def historySearchPred (term : String) (r : ItemLog) : Bool :=
  optContains r.barcode term || optContains r.patient_id term ||
    optContains r.notes term

/-- Embeds `ORDER BY scanned_at ASC`. -/
def oldestLe (a b : ItemLog) : Prop := a.scanned_at ≤ b.scanned_at

instance : DecidableRel oldestLe := fun a b => Nat.decLe a.scanned_at b.scanned_at

/-- Embeds `ORDER BY scanned_at DESC`. -/
def newestLe (a b : ItemLog) : Prop := b.scanned_at ≤ a.scanned_at

instance : DecidableRel newestLe := fun a b => Nat.decLe b.scanned_at a.scanned_at

/-- Embeds `ORDER BY expected_return_date ASC NULLS LAST`. -/
def erdNullsLastLe (a b : ItemLog) : Prop :=
  match a.expected_return_date, b.expected_return_date with
  | some x, some y => x ≤ y
  | some _, none => True
  | none, some _ => False
  | none, none => True

instance : DecidableRel erdNullsLastLe := fun a b => by
  unfold erdNullsLastLe
  rcases a.expected_return_date with _ | x <;>
    rcases b.expected_return_date with _ | y <;> exact inferInstance

/-- Embeds `ORDER BY barcode ASC, scanned_at DESC` (SQLite sorts NULL barcodes
first). -/
def barcodeLe (a b : ItemLog) : Prop :=
  match a.barcode, b.barcode with
  | none, none => b.scanned_at ≤ a.scanned_at
  | none, some _ => True
  | some _, none => False
  | some x, some y =>
      if x = y then b.scanned_at ≤ a.scanned_at else ¬ y < x

instance : DecidableRel barcodeLe := fun a b => by
  unfold barcodeLe
  rcases a.barcode with _ | x <;> rcases b.barcode with _ | y <;> exact inferInstance

/-- The sort branch ladder of `app.history`; `newest` is the default. -/
def historySort (sort : String) (l : List ItemLog) : List ItemLog :=
  if sort = "oldest" then List.insertionSort oldestLe l
  else if sort = "overdue" then List.insertionSort erdNullsLastLe l
  else if sort = "barcode" then List.insertionSort barcodeLe l
  else List.insertionSort newestLe l

/-- The paginated history response shape. -/
structure HistoryResult where
  items : List ItemLog
  total : Nat
  pages : Nat
  current_page : Nat
  has_next : Bool
  has_prev : Bool
deriving DecidableEq, Repr

/-- Embeds `query.paginate(page=…, per_page=…, error_out=False)`: 1-indexed pages,
`pages = ceil(total / per_page)`, out-of-range pages yield an empty item
set. -/
def paginate (l : List ItemLog) (page perPage : Nat) : HistoryResult :=
  { items := (l.drop ((page - 1) * perPage)).take perPage
    total := l.length
    pages := (l.length + perPage - 1) / perPage
    current_page := page
    has_next := decide (page < (l.length + perPage - 1) / perPage)
    has_prev := decide (1 < page) }

/-- Embeds `app.history` (`GET /history`): base predicate `deleted_at IS NULL`,
then filter, search (on the stripped term when nonempty), sort, paginate. -/
def history (db : AppDB) (now : Nat) (filter_type search0 sort : String)
    (page perPage : Nat) : HistoryResult :=
  let search := pyStrip search0
  let q := db.items.filter (fun r => r.deleted_at.isNone)
  let q := historyFilter now filter_type q
  let q := if search ≠ "" then q.filter (historySearchPred search) else q
  paginate (historySort sort q) page perPage

/-- The search predicate of `app.export_csv`: barcode OR notes containment —
the patient id column is not searched, unlike `history`. -/
def exportSearchPred (term : String) (r : ItemLog) : Bool :=
  optContains r.barcode term || optContains r.notes term

/-- The record selection of `app.export_csv` (`GET /export/csv`): base
predicate, the two supported filters, the two-column search, newest-first
order. The CSV body is one row per selected record. -/
def export_csv_items (db : AppDB) (now : Nat) (filter_type search0 : String) :
    List ItemLog :=
  let search := pyStrip search0
  let q := db.items.filter (fun r => r.deleted_at.isNone)
  let q :=
    if filter_type = "unreturned" then q.filter (fun r => !r.completed)
    else if filter_type = "overdue" then
      q.filter (fun r => !r.completed && erdBefore r now)
    else q
  let q := if search ≠ "" then q.filter (exportSearchPred search) else q
  List.insertionSort newestLe q

/-! ## State invariants -/

/-- The paired-timestamp discipline of spec §3/§4.2: each returned-at
timestamp is non-null exactly when its paired flag (or quantity) is in the
returned state. -/
def pairedSync (r : ItemLog) : Prop :=
  (r.returned_at.isSome = r.returned) ∧
  (r.block_returned_at.isSome = decide (0 < r.block_quantity)) ∧
  (r.slide_returned_at.isSome = decide (0 < r.slide_quantity)) ∧
  (r.completed_at.isSome = r.completed)

instance (r : ItemLog) : Decidable (pairedSync r) := by
  unfold pairedSync
  infer_instance

/-- The sub-quantity floor of spec §3: `blockQuantity ≥ 0`,
`slideQuantity ≥ 0`. -/
def quantNonneg (r : ItemLog) : Prop :=
  0 ≤ r.block_quantity ∧ 0 ≤ r.slide_quantity

instance (r : ItemLog) : Decidable (quantNonneg r) := by
  unfold quantNonneg
  infer_instance

/-- The per-record invariant every row of a reachable database satisfies. -/
def ItemsInv (db : AppDB) : Prop :=
  ∀ r ∈ db.items, pairedSync r ∧ quantNonneg r

/-! ## Concrete instances used by the closed statements -/

/-- A minimal starting database: one admin user, no items, no audit rows. -/
def baseDB : AppDB :=
  { items := [], users := [⟨1, "管理者", some "hash", true, true, 0⟩],
    audits := [], next_item_id := 1, next_user_id := 2, return_days := 14 }

/-- A database holding exactly the single item produced by
`scan baseDB 1 100 [("barcode", "A1")]`. -/
def oneItemDB : AppDB :=
  ((scan baseDB 1 100 [("barcode", JVal.str "A1")]).toOption.map Prod.fst).getD baseDB

/-- A helper building a plain non-deleted record scanned at `t`. -/
def mkRecord (i t : Nat) (c : Bool) : ItemLog :=
  { id := i, barcode := some ("B" ++ toString i), patient_id := none,
    quantity := 1, scanned_by_id := 1, scanned_at := t,
    expected_return_date := none, returned := false, returned_at := none,
    block_quantity := 0, block_returned_at := none, slide_quantity := 0,
    slide_returned_at := none, completed := c, completed_at := none,
    notes := none, deleted_at := none }

/-- Three records scanned at 100 < 200 < 300, only the middle one
completed (the spec §8.7 scenario). -/
def threeDB : AppDB :=
  { baseDB with items := [mkRecord 1 100 false, mkRecord 2 200 true, mkRecord 3 300 false] }

/-- A record whose patient id contains "X123" while barcode and notes do
not. -/
def patientOnlyRecord : ItemLog :=
  { mkRecord 9 400 false with patient_id := some "PX123" }

/-- A database holding only `patientOnlyRecord`. -/
def patientOnlyDB : AppDB :=
  { baseDB with items := [patientOnlyRecord] }

/-- Two users: one active admin (id 1) and one active non-admin (id 2). -/
def twoUserDB : AppDB :=
  { items := [], users := [⟨1, "管理者", some "hash", true, true, 0⟩,
      ⟨2, "一般", none, false, true, 0⟩],
    audits := [], next_item_id := 1, next_user_id := 3, return_days := 14 }

/-- The row `scan baseDB 1 100 [("barcode", "A1")]` creates. -/
def scannedItem : ItemLog :=
  { id := 1, barcode := some "A1", patient_id := none, quantity := 1,
    scanned_by_id := 1, scanned_at := 100,
    expected_return_date := some (100 + 14 * 86400), returned := false,
    returned_at := none, block_quantity := 0, block_returned_at := none,
    slide_quantity := 0, slide_returned_at := none, completed := false,
    completed_at := none, notes := none, deleted_at := none }

/-- The database state after that scan. -/
def scanResultDB : AppDB :=
  { items := [scannedItem], users := baseDB.users,
    audits := [⟨"CREATE", "item_logs", 1, some 1, none, some (.item scannedItem)⟩],
    next_item_id := 2, next_user_id := 2, return_days := 14 }

/-- A plain record used to exercise the update transition rules. -/
def updWitnessItem : ItemLog := mkRecord 7 50 false

/-- An update payload activating all four aspects at once. -/
def updWitnessData : List (String × JVal) :=
  [("returned", JVal.bool true), ("block_quantity", JVal.int 2),
   ("slide_quantity", JVal.int 3), ("completed", JVal.bool true)]

/-- The database state after soft-deleting the single item of
`scanResultDB` at time 777. -/
def deletedDB : AppDB :=
  { items := [{ scannedItem with deleted_at := some 777 }],
    users := baseDB.users,
    audits := scanResultDB.audits ++
      [⟨"DELETE", "item_logs", 1, some 1, some (.item scannedItem), none⟩],
    next_item_id := 2, next_user_id := 2, return_days := 14 }

/-- The row `updateItemFields updWitnessItem 5 updWitnessData` produces. -/
def updWitnessOut : ItemLog :=
  { updWitnessItem with
    returned := true, returned_at := some 5,
    block_quantity := 2, block_returned_at := some 5, slide_quantity := 3,
    slide_returned_at := some 5, completed := true, completed_at := some 5 }

/-! ## Supporting lemmas -/

theorem ebind_ok_iff {α β : Type} {x : Except ApiError α}
    {f : α → Except ApiError β} {b : β} :
    ebind x f = .ok b ↔ ∃ a, x = .ok a ∧ f a = .ok b := by
  cases x <;> simp [ebind]

theorem dGet_sanitize (d : List (String × JVal)) (k : String) :
    dGet (sanitize_input d) k = (dGet d k).map sanVal := by
  induction d with
  | nil => rfl
  | cons p d ih =>
      by_cases h : p.1 = k <;>
        simp [dGet, sanitize_input, List.find?, h] at ih ⊢ <;>
          simpa [dGet, sanitize_input] using ih

theorem dHas_sanitize (d : List (String × JVal)) (k : String) :
    dHas (sanitize_input d) k = dHas d k := by
  simp [dHas, dGet_sanitize]

/-- A successfully validated quantity is at least the minimum when the
default is: `validate_quantity` bounds the value below by 0 and returns the
default only for an absent value. -/
theorem validate_quantity_nonneg {v : JVal} {f : String} {d n : Int}
    (hd : 0 ≤ d) (h : validate_quantity v f d = .ok n) : 0 ≤ n := by
  unfold validate_quantity validate_integer at h
  cases v with
  | null => simp at h; omega
  | str s =>
      simp only at h
      cases hp : pyInt (.str s) <;> simp [hp] at h
      split at h
      · simp at h
      · split at h <;> simp at h; omega
  | int m =>
      simp only at h
      cases hp : pyInt (.int m) <;> simp [hp] at h
      split at h
      · simp at h
      · split at h <;> simp at h
        omega
  | bool b =>
      simp only at h
      cases hp : pyInt (.bool b) <;> simp [hp] at h
      split at h
      · simp at h
      · split at h <;> simp at h
        omega

/-! ### Shape lemmas: which fields each `update_item` step can touch -/

theorem applyQuantity_shape {data : List (String × JVal)} {item i' : ItemLog}
    (h : applyQuantity data item = .ok i') :
    ∃ q, i' = { item with quantity := q } := by
  unfold applyQuantity at h
  split at h
  · split at h
    · simp at h
    · exact ⟨_, by simpa using h.symm⟩
  · exact ⟨item.quantity, by simpa using h.symm⟩

theorem setReturned_shape (now : Nat) (nv : Bool) (item : ItemLog) :
    ∃ b t, setReturned now nv item = { item with returned := b, returned_at := t } := by
  unfold setReturned
  split
  · exact ⟨_, _, rfl⟩
  · split
    · exact ⟨_, _, rfl⟩
    · exact ⟨_, item.returned_at, rfl⟩

theorem applyReturned_shape {now : Nat} {data : List (String × JVal)}
    {item i' : ItemLog} (h : applyReturned now data item = .ok i') :
    ∃ b t, i' = { item with returned := b, returned_at := t } := by
  unfold applyReturned at h
  split at h
  · obtain rfl : setReturned now (pyTruthy (dGetJ data "returned")) item = i' := by
      simpa using h
    obtain ⟨b, t, he⟩ := setReturned_shape now (pyTruthy (dGetJ data "returned")) item
    exact ⟨b, t, he⟩
  · exact ⟨item.returned, item.returned_at, by simpa using h.symm⟩

theorem setBlock_shape (now : Nat) (nq : Int) (item : ItemLog) :
    ∃ q t, setBlock now nq item = { item with block_quantity := q, block_returned_at := t } := by
  unfold setBlock
  split
  · exact ⟨_, _, rfl⟩
  · split
    · exact ⟨_, _, rfl⟩
    · exact ⟨_, item.block_returned_at, rfl⟩

theorem applyBlockQuantity_shape {now : Nat} {data : List (String × JVal)}
    {item i' : ItemLog} (h : applyBlockQuantity now data item = .ok i') :
    ∃ q t, i' = { item with block_quantity := q, block_returned_at := t } := by
  unfold applyBlockQuantity at h
  split at h
  · split at h
    · simp at h
    · rename_i nq hv
      obtain rfl : setBlock now nq item = i' := by simpa using h
      exact setBlock_shape now nq item
  · exact ⟨item.block_quantity, item.block_returned_at, by simpa using h.symm⟩

theorem setSlide_shape (now : Nat) (nq : Int) (item : ItemLog) :
    ∃ q t, setSlide now nq item = { item with slide_quantity := q, slide_returned_at := t } := by
  unfold setSlide
  split
  · exact ⟨_, _, rfl⟩
  · split
    · exact ⟨_, _, rfl⟩
    · exact ⟨_, item.slide_returned_at, rfl⟩

theorem applySlideQuantity_shape {now : Nat} {data : List (String × JVal)}
    {item i' : ItemLog} (h : applySlideQuantity now data item = .ok i') :
    ∃ q t, i' = { item with slide_quantity := q, slide_returned_at := t } := by
  unfold applySlideQuantity at h
  split at h
  · split at h
    · simp at h
    · rename_i nq hv
      obtain rfl : setSlide now nq item = i' := by simpa using h
      exact setSlide_shape now nq item
  · exact ⟨item.slide_quantity, item.slide_returned_at, by simpa using h.symm⟩

theorem applyNotes_shape {data : List (String × JVal)} {item i' : ItemLog}
    (h : applyNotes data item = .ok i') :
    ∃ n, i' = { item with notes := n } := by
  unfold applyNotes at h
  split at h
  · split at h
    · simp at h
    · exact ⟨_, by simpa using h.symm⟩
  · exact ⟨item.notes, by simpa using h.symm⟩

theorem applyExpectedReturnDate_shape {data : List (String × JVal)}
    {item i' : ItemLog} (h : applyExpectedReturnDate data item = .ok i') :
    ∃ e, i' = { item with expected_return_date := e } := by
  unfold applyExpectedReturnDate at h
  split at h
  · dsimp only at h
    split at h
    · split at h
      · split at h
        · exact ⟨_, by simpa using h.symm⟩
        · simp at h
      · simp at h
    · exact ⟨_, by simpa using h.symm⟩
  · exact ⟨item.expected_return_date, by simpa using h.symm⟩

theorem setCompleted_shape (now : Nat) (nv : Bool) (item : ItemLog) :
    ∃ b t, setCompleted now nv item = { item with completed := b, completed_at := t } := by
  unfold setCompleted
  split
  · exact ⟨_, _, rfl⟩
  · split
    · exact ⟨_, _, rfl⟩
    · exact ⟨_, item.completed_at, rfl⟩

theorem applyCompleted_shape {now : Nat} {data : List (String × JVal)}
    {item i' : ItemLog} (h : applyCompleted now data item = .ok i') :
    ∃ b t, i' = { item with completed := b, completed_at := t } := by
  unfold applyCompleted at h
  split at h
  · obtain rfl : setCompleted now (pyTruthy (dGetJ data "completed")) item = i' := by
      simpa using h
    exact setCompleted_shape now (pyTruthy (dGetJ data "completed")) item
  · exact ⟨item.completed, item.completed_at, by simpa using h.symm⟩

/-! ### Invariant preservation by the `update_item` steps -/

theorem applyQuantity_inv {data : List (String × JVal)} {item i' : ItemLog}
    (h : applyQuantity data item = .ok i')
    (hp : pairedSync item) (hq : quantNonneg item) :
    pairedSync i' ∧ quantNonneg i' := by
  obtain ⟨q, rfl⟩ := applyQuantity_shape h
  exact ⟨hp, hq⟩

theorem applyNotes_inv {data : List (String × JVal)} {item i' : ItemLog}
    (h : applyNotes data item = .ok i')
    (hp : pairedSync item) (hq : quantNonneg item) :
    pairedSync i' ∧ quantNonneg i' := by
  obtain ⟨n, rfl⟩ := applyNotes_shape h
  exact ⟨hp, hq⟩

theorem applyExpectedReturnDate_inv {data : List (String × JVal)}
    {item i' : ItemLog} (h : applyExpectedReturnDate data item = .ok i')
    (hp : pairedSync item) (hq : quantNonneg item) :
    pairedSync i' ∧ quantNonneg i' := by
  obtain ⟨e, rfl⟩ := applyExpectedReturnDate_shape h
  exact ⟨hp, hq⟩

theorem setReturned_sync {now : Nat} {nv : Bool} {item : ItemLog}
    (hp : pairedSync item) : pairedSync (setReturned now nv item) := by
  obtain ⟨hpa, hpb, hpc, hpd⟩ := hp
  unfold setReturned
  split
  · rename_i hc
    simp only [Bool.and_eq_true, Bool.not_eq_true'] at hc
    exact ⟨by simp [hc.1], hpb, hpc, hpd⟩
  · split
    · rename_i hc' hc
      simp only [Bool.not_eq_true'] at hc
      exact ⟨by simp [hc], hpb, hpc, hpd⟩
    · rename_i hc1 hc2
      have hnv : nv = true := by
        cases hv : nv
        · exact absurd (by simp [hv]) hc2
        · rfl
      have hr : item.returned = true := by
        cases hi : item.returned
        · exact absurd (by simp [hnv, hi]) hc1
        · rfl
      exact ⟨by rw [hnv, ← hr]; exact hpa, hpb, hpc, hpd⟩

theorem setReturned_quant {now : Nat} {nv : Bool} {item : ItemLog}
    (hq : quantNonneg item) : quantNonneg (setReturned now nv item) := by
  obtain ⟨b, t, he⟩ := setReturned_shape now nv item
  rw [he]
  exact hq

theorem applyReturned_inv {now : Nat} {data : List (String × JVal)}
    {item i' : ItemLog} (h : applyReturned now data item = .ok i')
    (hp : pairedSync item) (hq : quantNonneg item) :
    pairedSync i' ∧ quantNonneg i' := by
  unfold applyReturned at h
  split at h
  · obtain rfl : setReturned now (pyTruthy (dGetJ data "returned")) item = i' := by
      simpa using h
    exact ⟨setReturned_sync hp, setReturned_quant hq⟩
  · obtain rfl : item = i' := by simpa using h
    exact ⟨hp, hq⟩

theorem setCompleted_sync {now : Nat} {nv : Bool} {item : ItemLog}
    (hp : pairedSync item) : pairedSync (setCompleted now nv item) := by
  obtain ⟨hpa, hpb, hpc, hpd⟩ := hp
  unfold setCompleted
  split
  · rename_i hc
    simp only [Bool.and_eq_true, Bool.not_eq_true'] at hc
    exact ⟨hpa, hpb, hpc, by simp [hc.1]⟩
  · split
    · rename_i hc' hc
      simp only [Bool.not_eq_true'] at hc
      exact ⟨hpa, hpb, hpc, by simp [hc]⟩
    · rename_i hc1 hc2
      have hnv : nv = true := by
        cases hv : nv
        · exact absurd (by simp [hv]) hc2
        · rfl
      have hr : item.completed = true := by
        cases hi : item.completed
        · exact absurd (by simp [hnv, hi]) hc1
        · rfl
      exact ⟨hpa, hpb, hpc, by rw [hnv, ← hr]; exact hpd⟩

theorem setCompleted_quant {now : Nat} {nv : Bool} {item : ItemLog}
    (hq : quantNonneg item) : quantNonneg (setCompleted now nv item) := by
  obtain ⟨b, t, he⟩ := setCompleted_shape now nv item
  rw [he]
  exact hq

theorem applyCompleted_inv {now : Nat} {data : List (String × JVal)}
    {item i' : ItemLog} (h : applyCompleted now data item = .ok i')
    (hp : pairedSync item) (hq : quantNonneg item) :
    pairedSync i' ∧ quantNonneg i' := by
  unfold applyCompleted at h
  split at h
  · obtain rfl : setCompleted now (pyTruthy (dGetJ data "completed")) item = i' := by
      simpa using h
    exact ⟨setCompleted_sync hp, setCompleted_quant hq⟩
  · obtain rfl : item = i' := by simpa using h
    exact ⟨hp, hq⟩

theorem setBlock_inv {now : Nat} {nq : Int} {item : ItemLog} (hnn : 0 ≤ nq)
    (hp : pairedSync item) (hq : quantNonneg item) :
    pairedSync (setBlock now nq item) ∧ quantNonneg (setBlock now nq item) := by
  obtain ⟨hpa, hpb, hpc, hpd⟩ := hp
  obtain ⟨hq1, hq2⟩ := hq
  unfold setBlock
  split
  · rename_i hc
    exact ⟨⟨hpa, by simp [hc.1], hpc, hpd⟩, hnn, hq2⟩
  · split
    · rename_i hc' hc
      exact ⟨⟨hpa, by simp [hc], hpc, hpd⟩, hnn, hq2⟩
    · rename_i hc1 hc2
      have h1 : 0 < nq := lt_of_le_of_ne hnn (Ne.symm hc2)
      have h2 : 0 < item.block_quantity := by
        rcases lt_or_eq_of_le hq1 with h' | h'
        · exact h'
        · exact absurd ⟨h1, h'.symm⟩ hc1
      refine ⟨⟨hpa, ?_, hpc, hpd⟩, hnn, hq2⟩
      rw [hpb]
      simp [h1, h2]

theorem applyBlockQuantity_inv {now : Nat} {data : List (String × JVal)}
    {item i' : ItemLog} (h : applyBlockQuantity now data item = .ok i')
    (hp : pairedSync item) (hq : quantNonneg item) :
    pairedSync i' ∧ quantNonneg i' := by
  unfold applyBlockQuantity at h
  split at h
  · split at h
    · simp at h
    · rename_i nq hv
      obtain rfl : setBlock now nq item = i' := by simpa using h
      exact setBlock_inv (validate_quantity_nonneg le_rfl hv) ⟨hp.1, hp.2.1, hp.2.2.1, hp.2.2.2⟩ hq
  · obtain rfl : item = i' := by simpa using h
    exact ⟨hp, hq⟩

theorem setSlide_inv {now : Nat} {nq : Int} {item : ItemLog} (hnn : 0 ≤ nq)
    (hp : pairedSync item) (hq : quantNonneg item) :
    pairedSync (setSlide now nq item) ∧ quantNonneg (setSlide now nq item) := by
  obtain ⟨hpa, hpb, hpc, hpd⟩ := hp
  obtain ⟨hq1, hq2⟩ := hq
  unfold setSlide
  split
  · rename_i hc
    exact ⟨⟨hpa, hpb, by simp [hc.1], hpd⟩, hq1, hnn⟩
  · split
    · rename_i hc' hc
      exact ⟨⟨hpa, hpb, by simp [hc], hpd⟩, hq1, hnn⟩
    · rename_i hc1 hc2
      have h1 : 0 < nq := lt_of_le_of_ne hnn (Ne.symm hc2)
      have h2 : 0 < item.slide_quantity := by
        rcases lt_or_eq_of_le hq2 with h' | h'
        · exact h'
        · exact absurd ⟨h1, h'.symm⟩ hc1
      refine ⟨⟨hpa, hpb, ?_, hpd⟩, hq1, hnn⟩
      rw [hpc]
      simp [h1, h2]

theorem applySlideQuantity_inv {now : Nat} {data : List (String × JVal)}
    {item i' : ItemLog} (h : applySlideQuantity now data item = .ok i')
    (hp : pairedSync item) (hq : quantNonneg item) :
    pairedSync i' ∧ quantNonneg i' := by
  unfold applySlideQuantity at h
  split at h
  · split at h
    · simp at h
    · rename_i nq hv
      obtain rfl : setSlide now nq item = i' := by simpa using h
      exact setSlide_inv (validate_quantity_nonneg le_rfl hv) ⟨hp.1, hp.2.1, hp.2.2.1, hp.2.2.2⟩ hq
  · obtain rfl : item = i' := by simpa using h
    exact ⟨hp, hq⟩

/-- Embeds `updateItemFields` preserves the paired-timestamp discipline and the
sub-quantity floor. -/
theorem updateItemFields_inv {item : ItemLog} {now : Nat}
    {data : List (String × JVal)} {item' : ItemLog}
    (h : updateItemFields item now data = .ok item')
    (hp : pairedSync item) (hq : quantNonneg item) :
    pairedSync item' ∧ quantNonneg item' := by
  unfold updateItemFields at h
  obtain ⟨i1, h1, h⟩ := ebind_ok_iff.mp h
  obtain ⟨i2, h2, h⟩ := ebind_ok_iff.mp h
  obtain ⟨i3, h3, h⟩ := ebind_ok_iff.mp h
  obtain ⟨i4, h4, h⟩ := ebind_ok_iff.mp h
  obtain ⟨i5, h5, h⟩ := ebind_ok_iff.mp h
  obtain ⟨i6, h6, h7⟩ := ebind_ok_iff.mp h
  obtain ⟨p1, q1⟩ := applyQuantity_inv h1 hp hq
  obtain ⟨p2, q2⟩ := applyReturned_inv h2 p1 q1
  obtain ⟨p3, q3⟩ := applyBlockQuantity_inv h3 p2 q2
  obtain ⟨p4, q4⟩ := applySlideQuantity_inv h4 p3 q3
  obtain ⟨p5, q5⟩ := applyNotes_inv h5 p4 q4
  obtain ⟨p6, q6⟩ := applyExpectedReturnDate_inv h6 p5 q5
  exact applyCompleted_inv h7 p6 q6

/-! ### Transition behavior of the assignment blocks -/

theorem setReturned_ts (now : Nat) (nv : Bool) (item : ItemLog) :
    ((nv = true ∧ item.returned = false) →
        (setReturned now nv item).returned_at = some now) ∧
    ((nv = true ∧ item.returned = true) →
        (setReturned now nv item).returned_at = item.returned_at) ∧
    (nv = false → (setReturned now nv item).returned_at = none) ∧
    (setReturned now nv item).returned = nv := by
  unfold setReturned
  cases nv <;> cases hi : item.returned <;> simp [hi]

theorem setCompleted_ts (now : Nat) (nv : Bool) (item : ItemLog) :
    ((nv = true ∧ item.completed = false) →
        (setCompleted now nv item).completed_at = some now) ∧
    ((nv = true ∧ item.completed = true) →
        (setCompleted now nv item).completed_at = item.completed_at) ∧
    (nv = false → (setCompleted now nv item).completed_at = none) ∧
    (setCompleted now nv item).completed = nv := by
  unfold setCompleted
  cases nv <;> cases hi : item.completed <;> simp [hi]

theorem setBlock_ts (now : Nat) (nq : Int) (item : ItemLog) :
    ((0 < nq ∧ item.block_quantity = 0) →
        (setBlock now nq item).block_returned_at = some now) ∧
    ((0 < nq ∧ item.block_quantity ≠ 0) →
        (setBlock now nq item).block_returned_at = item.block_returned_at) ∧
    (nq = 0 → (setBlock now nq item).block_returned_at = none) ∧
    (setBlock now nq item).block_quantity = nq := by
  unfold setBlock
  split_ifs with h1 h2 <;> refine ⟨?_, ?_, ?_, rfl⟩ <;> intro hc <;> simp_all <;> omega

theorem setSlide_ts (now : Nat) (nq : Int) (item : ItemLog) :
    ((0 < nq ∧ item.slide_quantity = 0) →
        (setSlide now nq item).slide_returned_at = some now) ∧
    ((0 < nq ∧ item.slide_quantity ≠ 0) →
        (setSlide now nq item).slide_returned_at = item.slide_returned_at) ∧
    (nq = 0 → (setSlide now nq item).slide_returned_at = none) ∧
    (setSlide now nq item).slide_quantity = nq := by
  unfold setSlide
  split_ifs with h1 h2 <;> refine ⟨?_, ?_, ?_, rfl⟩ <;> intro hc <;> simp_all <;> omega

theorem applyQuantity_absent {data : List (String × JVal)} {item : ItemLog}
    (h : dHas data "quantity" = false) : applyQuantity data item = .ok item := by
  simp [applyQuantity, h]

theorem applyReturned_absent {now : Nat} {data : List (String × JVal)}
    {item : ItemLog} (h : dHas data "returned" = false) :
    applyReturned now data item = .ok item := by
  simp [applyReturned, h]

theorem applyReturned_present {now : Nat} {data : List (String × JVal)}
    {item : ItemLog} (h : dHas data "returned" = true) :
    applyReturned now data item =
      .ok (setReturned now (pyTruthy (dGetJ data "returned")) item) := by
  simp [applyReturned, h]

theorem applyBlockQuantity_absent {now : Nat} {data : List (String × JVal)}
    {item : ItemLog} (h : dHas data "block_quantity" = false) :
    applyBlockQuantity now data item = .ok item := by
  simp [applyBlockQuantity, h]

theorem applyBlockQuantity_present {now : Nat} {data : List (String × JVal)}
    {item : ItemLog} {nq : Int} (h : dHas data "block_quantity" = true)
    (hv : validate_quantity (dGetJ data "block_quantity") "ブロック数" 0 = .ok nq) :
    applyBlockQuantity now data item = .ok (setBlock now nq item) := by
  simp [applyBlockQuantity, h, hv]

theorem applySlideQuantity_absent {now : Nat} {data : List (String × JVal)}
    {item : ItemLog} (h : dHas data "slide_quantity" = false) :
    applySlideQuantity now data item = .ok item := by
  simp [applySlideQuantity, h]

theorem applySlideQuantity_present {now : Nat} {data : List (String × JVal)}
    {item : ItemLog} {nq : Int} (h : dHas data "slide_quantity" = true)
    (hv : validate_quantity (dGetJ data "slide_quantity") "スライド数" 0 = .ok nq) :
    applySlideQuantity now data item = .ok (setSlide now nq item) := by
  simp [applySlideQuantity, h, hv]

theorem applyCompleted_absent {now : Nat} {data : List (String × JVal)}
    {item : ItemLog} (h : dHas data "completed" = false) :
    applyCompleted now data item = .ok item := by
  simp [applyCompleted, h]

theorem applyCompleted_present {now : Nat} {data : List (String × JVal)}
    {item : ItemLog} (h : dHas data "completed" = true) :
    applyCompleted now data item =
      .ok (setCompleted now (pyTruthy (dGetJ data "completed")) item) := by
  simp [applyCompleted, h]

/-! ### List helpers for primary-key lookup and row replacement -/

theorem id_of_findItem {items : List ItemLog} {i : Nat} {item : ItemLog}
    (h : findItem items i = some item) : item.id = i := by
  have := List.find?_some h
  simpa using this

theorem mem_of_findItem {items : List ItemLog} {i : Nat} {item : ItemLog}
    (h : findItem items i = some item) : item ∈ items :=
  List.mem_of_find?_eq_some h

theorem mem_replaceItem {items : List ItemLog} {i : Nat} {item' r : ItemLog}
    (h : r ∈ replaceItem items i item') : r = item' ∨ r ∈ items := by
  unfold replaceItem at h
  rcases List.mem_map.mp h with ⟨a, ha, hr⟩
  by_cases hc : (a.id == i) = true
  · rw [if_pos hc] at hr
    exact Or.inl hr.symm
  · rw [if_neg hc] at hr
    exact Or.inr (hr ▸ ha)

theorem findItem_replaceItem {i : Nat} {item item' : ItemLog}
    (hid : (item'.id == i) = true) :
    ∀ {items : List ItemLog}, findItem items i = some item →
      findItem (replaceItem items i item') i = some item' := by
  intro items
  induction items with
  | nil => intro h; simp [findItem] at h
  | cons a l ih =>
      intro h
      by_cases hc : (a.id == i) = true
      · simp only [findItem, replaceItem, List.map_cons, if_pos hc]
        simp [List.find?, hid]
      · simp only [findItem, replaceItem, List.map_cons, if_neg hc]
        simp only [findItem, List.find?, hc] at h ⊢
        exact ih h

/-! ### Inversion of the success paths of the handlers -/

/-- What a successful `scan` guarantees: the new row is appended together
with exactly one CREATE audit entry carrying the new snapshot only, and the
fresh row has all four paired timestamps at `None`, `completed = False`, a
quantity of at least 1 and non-negative sub-quantities. -/
theorem scan_ok_inv {db : AppDB} {uid now : Nat} {body : List (String × JVal)}
    {db' : AppDB} {item : ItemLog}
    (h : scan db uid now body = .ok (db', item)) :
    db'.items = db.items ++ [item] ∧
    db'.users = db.users ∧
    db'.audits = db.audits ++
      [⟨"CREATE", "item_logs", item.id, some uid, none, some (.item item)⟩] ∧
    item.returned_at = none ∧ item.block_returned_at = none ∧
    item.slide_returned_at = none ∧ item.completed_at = none ∧
    item.completed = false ∧ 1 ≤ item.quantity ∧
    0 ≤ item.block_quantity ∧ 0 ≤ item.slide_quantity ∧
    item.scanned_at = now ∧ item.deleted_at = none ∧
    validate_quantity (dGetD (sanitize_input body) "quantity" (JVal.int 1))
      "個数" 1 = .ok item.quantity := by
  unfold scan at h
  dsimp only at h
  split at h
  · simp at h
  split at h
  · simp at h
  split at h
  · simp at h
  split at h
  · simp at h
  rename_i quantity hq
  split at h
  · simp at h
  rename_i block_quantity hbq
  split at h
  · simp at h
  rename_i slide_quantity hsq
  split at h
  · simp at h
  split at h
  · simp at h
  rename_i hq1
  simp only [Except.ok.injEq, Prod.mk.injEq] at h
  obtain ⟨hdb, hitem⟩ := h
  subst hdb
  subst hitem
  refine ⟨rfl, rfl, rfl, rfl, rfl, rfl, rfl, rfl, ?_, ?_, ?_, rfl, rfl, hq⟩
  · show 1 ≤ quantity
    omega
  · exact validate_quantity_nonneg le_rfl hbq
  · exact validate_quantity_nonneg le_rfl hsq

/-- What a successful `update_item` guarantees: the target row existed, the
field application succeeded, exactly that row is replaced, and exactly one
UPDATE audit entry with both snapshots is appended. -/
theorem update_item_ok_inv {db : AppDB} {uid itemId now : Nat}
    {body : List (String × JVal)} {db' : AppDB} {item' : ItemLog}
    (h : update_item db uid itemId now body = .ok (db', item')) :
    ∃ item, findItem db.items itemId = some item ∧
      updateItemFields item now (sanitize_input body) = .ok item' ∧
      db'.items = replaceItem db.items itemId item' ∧
      db'.users = db.users ∧
      db'.audits = db.audits ++
        [⟨"UPDATE", "item_logs", item.id, some uid,
          some (.item item), some (.item item')⟩] := by
  unfold update_item at h
  split at h
  · simp at h
  rename_i item hfind
  dsimp only at h
  split at h
  · simp at h
  rename_i hupd
  simp only [Except.ok.injEq, Prod.mk.injEq] at h
  obtain ⟨hdb, hu⟩ := h
  subst hdb
  subst hu
  exact ⟨item, hfind, hupd, rfl, rfl, rfl⟩

/-- What a successful `delete_item` guarantees: the target row existed and is
replaced by itself with only `deleted_at` set; one DELETE audit entry with
the old snapshot only is appended. -/
theorem delete_item_ok_inv {db : AppDB} {uid itemId now : Nat} {db' : AppDB}
    (h : delete_item db uid itemId now = .ok db') :
    ∃ item, findItem db.items itemId = some item ∧
      db'.items = replaceItem db.items itemId { item with deleted_at := some now } ∧
      db'.users = db.users ∧
      db'.audits = db.audits ++
        [⟨"DELETE", "item_logs", item.id, some uid, some (.item item), none⟩] := by
  unfold delete_item at h
  split at h
  · simp at h
  rename_i item hfind
  dsimp only at h
  simp only [Except.ok.injEq] at h
  subst h
  exact ⟨item, hfind, rfl, rfl, rfl⟩

/-- What a successful `register_user` guarantees: one user row is appended
and the audit trail is untouched — the login-screen registration writes no
audit entry. -/
theorem register_user_ok_inv {db : AppDB} {now : Nat}
    {body : List (String × JVal)} {db' : AppDB} {u : UserRec}
    (h : register_user db now body = .ok (db', u)) :
    db'.users = db.users ++ [u] ∧ db'.audits = db.audits ∧
    db'.items = db.items := by
  unfold register_user at h
  split at h
  · dsimp only at h
    split at h
    · simp at h
    split at h
    · simp at h
    simp only [Except.ok.injEq, Prod.mk.injEq] at h
    obtain ⟨hdb, hu⟩ := h
    subst hdb
    subst hu
    exact ⟨rfl, rfl, rfl⟩
  all_goals simp at h

/-- What a successful `create_user` guarantees: one user row plus exactly
one CREATE audit entry carrying the new snapshot only. -/
theorem create_user_ok_inv {db : AppDB} {callerId : Option Nat} {now : Nat}
    {body : List (String × JVal)} {db' : AppDB} {u : UserRec}
    (h : create_user db callerId now body = .ok (db', u)) :
    db'.users = db.users ++ [u] ∧ db'.items = db.items ∧
    db'.audits = db.audits ++
      [⟨"CREATE", "users", u.id, callerId, none, some (.user u.to_dict)⟩] := by
  unfold create_user at h
  dsimp only at h
  split at h
  · simp at h
  split at h
  · simp at h
  split at h
  · simp at h
  simp only [Except.ok.injEq, Prod.mk.injEq] at h
  obtain ⟨hdb, hu⟩ := h
  subst hdb
  subst hu
  exact ⟨rfl, rfl, rfl⟩

/-- What a successful `update_user` guarantees: the target row existed, is
replaced, and exactly one UPDATE audit entry with both snapshots is
appended. -/
theorem update_user_ok_inv {db : AppDB} {callerId : Option Nat} {userId : Nat}
    {body : List (String × JVal)} {db' : AppDB} {u' : UserRec}
    (h : update_user db callerId userId body = .ok (db', u')) :
    ∃ user, findUser db.users userId = some user ∧
      db'.users = replaceUser db.users userId u' ∧ db'.items = db.items ∧
      db'.audits = db.audits ++
        [⟨"UPDATE", "users", user.id, callerId,
          some (.user user.to_dict), some (.user u'.to_dict)⟩] := by
  unfold update_user at h
  split at h
  · simp at h
  rename_i user hfind
  dsimp only at h
  split at h
  · simp at h
  rename_i hupd
  simp only [Except.ok.injEq, Prod.mk.injEq] at h
  obtain ⟨hdb, hu⟩ := h
  subst hdb
  subst hu
  exact ⟨user, hfind, rfl, rfl, rfl⟩

/-! ### History query lemmas -/

theorem mem_historySort {sort : String} {l : List ItemLog} {r : ItemLog} :
    r ∈ historySort sort l ↔ r ∈ l := by
  unfold historySort
  split_ifs <;> exact List.mem_insertionSort _

theorem mem_paginate_items {l : List ItemLog} {page perPage : Nat}
    {r : ItemLog} (h : r ∈ (paginate l page perPage).items) : r ∈ l :=
  List.mem_of_mem_drop (List.mem_of_mem_take h)

theorem mem_historyFilter {now : Nat} {ft : String} {l : List ItemLog}
    {r : ItemLog} (h : r ∈ historyFilter now ft l) : r ∈ l := by
  unfold historyFilter at h
  split_ifs at h <;> first
    | exact (List.mem_filter.mp h).1
    | exact h

/-- Every item served by `history` is a non-deleted row of the table. -/
theorem history_mem_inv {db : AppDB} {now : Nat} {ft s sort : String}
    {page pp : Nat} {r : ItemLog}
    (h : r ∈ (history db now ft s sort page pp).items) :
    r ∈ db.items ∧ r.deleted_at = none := by
  unfold history at h
  dsimp only at h
  have h1 := mem_paginate_items h
  rw [mem_historySort] at h1
  have h2 : r ∈ historyFilter now ft
      (db.items.filter (fun x => x.deleted_at.isNone)) := by
    by_cases hs : pyStrip s ≠ ""
    · rw [if_pos hs] at h1
      exact (List.mem_filter.mp h1).1
    · rw [if_neg hs] at h1
      exact h1
  have h3 := List.mem_filter.mp (mem_historyFilter h2)
  exact ⟨h3.1, by simpa using h3.2⟩

/-- The `incomplete` filter reduces to the `completed == False` predicate. -/
theorem historyFilter_incomplete (now : Nat) (l : List ItemLog) :
    historyFilter now "incomplete" l = l.filter (fun r => !r.completed) := by
  rfl

/-- Every item served by `history` under the `incomplete` filter has
`completed = false`. -/
theorem history_incomplete_mem {db : AppDB} {now : Nat} {s sort : String}
    {page pp : Nat} {r : ItemLog}
    (h : r ∈ (history db now "incomplete" s sort page pp).items) :
    r.completed = false := by
  unfold history at h
  dsimp only at h
  have h1 := mem_paginate_items h
  rw [mem_historySort] at h1
  have h2 : r ∈ historyFilter now "incomplete"
      (db.items.filter (fun x => x.deleted_at.isNone)) := by
    by_cases hs : pyStrip s ≠ ""
    · rw [if_pos hs] at h1
      exact (List.mem_filter.mp h1).1
    · rw [if_neg hs] at h1
      exact h1
  rw [historyFilter_incomplete] at h2
  simpa using (List.mem_filter.mp h2).2

/-- The item page served by `history` under the `oldest` sort is ordered by
ascending scan time. -/
theorem history_oldest_sorted (db : AppDB) (now : Nat) (ft s : String)
    (page pp : Nat) :
    ((history db now ft s "oldest" page pp).items).Pairwise oldestLe := by
  unfold history paginate
  dsimp only
  have hsorted : ∀ l : List ItemLog,
      (historySort "oldest" l).Pairwise oldestLe := by
    intro l
    unfold historySort
    rw [if_pos rfl]
    haveI : IsTotal ItemLog oldestLe := ⟨fun a b => Nat.le_total _ _⟩
    haveI : IsTrans ItemLog oldestLe := ⟨fun _ _ _ => Nat.le_trans⟩
    exact List.sorted_insertionSort oldestLe l
  exact (hsorted _).sublist
    ((List.take_sublist _ _).trans (List.drop_sublist _ _))

/-- The record selection of the CSV export under the default `all` filter:
exactly the non-deleted records whose barcode or notes contain the stripped
search term. -/
theorem mem_export_csv_items_all {db : AppDB} {now : Nat} {search : String}
    {r : ItemLog} (hs : pyStrip search ≠ "") :
    r ∈ export_csv_items db now "all" search ↔
      r ∈ db.items ∧ r.deleted_at = none ∧
        exportSearchPred (pyStrip search) r = true := by
  unfold export_csv_items
  dsimp only
  rw [if_pos hs, if_neg (by decide), if_neg (by decide)]
  rw [List.mem_insertionSort _, List.mem_filter, List.mem_filter]
  simp [and_assoc, Option.isNone_iff_eq_none]

/-! ## Claim theorems -/

/-- C1 (amended). The paired-timestamp discipline holds for every
record of every database reachable by `scan`, `update_item` and
`delete_item`, *provided* each record was created with its aspects
initially inactive: a freshly scanned row always has all four timestamps
`None`, so it satisfies the pairing exactly when `returned = false` and
both sub-quantities are 0; the pairing (together with the sub-quantity
floor) is then preserved by every successful `update_item` and
`delete_item`. The assertion of the original claim that the pairing also holds
for a record created with an initial `returned = true` flag is refuted by
`claim_C1_counterexample`. -/
theorem claim_C1_paired_timestamps :
    (∀ db uid now body db' item, scan db uid now body = .ok (db', item) →
      (pairedSync item ↔
        (item.returned = false ∧ item.block_quantity = 0 ∧
          item.slide_quantity = 0))) ∧
    (∀ db uid now body db' item, scan db uid now body = .ok (db', item) →
      ItemsInv db → pairedSync item → ItemsInv db') ∧
    (∀ db uid itemId now body db' item',
      update_item db uid itemId now body = .ok (db', item') →
      ItemsInv db → ItemsInv db') ∧
    (∀ db uid itemId now db', delete_item db uid itemId now = .ok db' →
      ItemsInv db → ItemsInv db') := by
  refine ⟨?_, ?_, ?_, ?_⟩
  · intro db uid now body db' item h
    obtain ⟨-, -, -, hra, hba, hsa, hca, hcf, -, hbq, hsq, -, -⟩ := scan_ok_inv h
    constructor
    · rintro ⟨h1, h2, h3, -⟩
      rw [hra] at h1
      rw [hba] at h2
      rw [hsa] at h3
      simp only [Option.isSome_none] at h1 h2 h3
      have h2' := of_decide_eq_false h2.symm
      have h3' := of_decide_eq_false h3.symm
      exact ⟨h1.symm, by omega, by omega⟩
    · rintro ⟨h1, h2, h3⟩
      refine ⟨?_, ?_, ?_, ?_⟩
      · rw [hra, h1]
        rfl
      · rw [hba, h2]
        rfl
      · rw [hsa, h3]
        rfl
      · rw [hca, hcf]
        rfl
  · intro db uid now body db' item h hinv hps
    obtain ⟨hitems, -, -, -, -, -, -, -, -, hbq, hsq, -, -⟩ := scan_ok_inv h
    intro r hr
    rw [hitems] at hr
    rcases List.mem_append.mp hr with hr | hr
    · exact hinv r hr
    · rw [List.mem_singleton.mp hr]
      exact ⟨hps, hbq, hsq⟩
  · intro db uid itemId now body db' item' h hinv r hr
    obtain ⟨item, hfind, hupd, hitems, -, -⟩ := update_item_ok_inv h
    rw [hitems] at hr
    rcases mem_replaceItem hr with rfl | hr
    · obtain ⟨hp, hq⟩ := hinv item (mem_of_findItem hfind)
      exact updateItemFields_inv hupd hp hq
    · exact hinv r hr
  · intro db uid itemId now db' h hinv r hr
    obtain ⟨item, hfind, hitems, -, -⟩ := delete_item_ok_inv h
    rw [hitems] at hr
    rcases mem_replaceItem hr with rfl | hr
    · obtain ⟨hp, hq⟩ := hinv item (mem_of_findItem hfind)
      exact ⟨⟨hp.1, hp.2.1, hp.2.2.1, hp.2.2.2⟩, hq.1, hq.2⟩
    · exact hinv r hr

/-- C1 counterexample: a record freshly created by `scan` with an
initial `returned = true` flag has `returned = true` while
`returned_at = none` — the flag is active but the paired timestamp is
null, so the claimed iff fails on this reachable record. -/
theorem claim_C1_counterexample :
    ((scan baseDB 1 100
        [("barcode", JVal.str "A1"), ("returned", JVal.bool true)]).map
      (fun p => (p.2.returned, p.2.returned_at))) = .ok (true, none) := by
  rfl

/-- C1 witness: the amended invariant instantiated on a concrete scan
with inactive initial aspects. -/
theorem claim_C1_witness :
    (pairedSync scannedItem ↔
      (scannedItem.returned = false ∧ scannedItem.block_quantity = 0 ∧
        scannedItem.slide_quantity = 0)) ∧
    ItemsInv scanResultDB := by
  have hscan : scan baseDB 1 100 [("barcode", JVal.str "A1")] =
      .ok (scanResultDB, scannedItem) := by rfl
  have hbase : ItemsInv baseDB := by
    intro r hr
    simp [baseDB] at hr
  have hps : pairedSync scannedItem := by decide
  exact ⟨claim_C1_paired_timestamps.1 _ _ _ _ _ _ hscan,
    claim_C1_paired_timestamps.2.1 _ _ _ _ _ _ hscan hbase hps⟩

/-- C2 (confirmed). For every existing record, the field application of
`update_item` treats each of the four timestamped aspects per the
transition discipline: an absent key leaves the timestamp untouched; a
supplied active value sets the timestamp to `now` only on the
inactive-to-active transition, leaves the timestamp of an already-active aspect
unchanged (idempotent), and a supplied inactive value (falsy flag or
quantity 0) clears the timestamp to null unconditionally. -/
theorem claim_C2_update_transitions :
    ∀ (item : ItemLog) (now : Nat) (data : List (String × JVal))
      (item' : ItemLog),
    updateItemFields item now data = .ok item' →
    ((dHas data "returned" = false → item'.returned_at = item.returned_at) ∧
     (dHas data "returned" = true →
       ((pyTruthy (dGetJ data "returned") = true ∧ item.returned = false →
           item'.returned_at = some now) ∧
        (pyTruthy (dGetJ data "returned") = true ∧ item.returned = true →
           item'.returned_at = item.returned_at) ∧
        (pyTruthy (dGetJ data "returned") = false →
           item'.returned_at = none)))) ∧
    ((dHas data "block_quantity" = false →
        item'.block_returned_at = item.block_returned_at) ∧
     (∀ nq, dHas data "block_quantity" = true →
       validate_quantity (dGetJ data "block_quantity") "ブロック数" 0 = .ok nq →
       ((0 < nq ∧ item.block_quantity = 0 →
           item'.block_returned_at = some now) ∧
        (0 < nq ∧ item.block_quantity ≠ 0 →
           item'.block_returned_at = item.block_returned_at) ∧
        (nq = 0 → item'.block_returned_at = none)))) ∧
    ((dHas data "slide_quantity" = false →
        item'.slide_returned_at = item.slide_returned_at) ∧
     (∀ nq, dHas data "slide_quantity" = true →
       validate_quantity (dGetJ data "slide_quantity") "スライド数" 0 = .ok nq →
       ((0 < nq ∧ item.slide_quantity = 0 →
           item'.slide_returned_at = some now) ∧
        (0 < nq ∧ item.slide_quantity ≠ 0 →
           item'.slide_returned_at = item.slide_returned_at) ∧
        (nq = 0 → item'.slide_returned_at = none)))) ∧
    ((dHas data "completed" = false → item'.completed_at = item.completed_at) ∧
     (dHas data "completed" = true →
       ((pyTruthy (dGetJ data "completed") = true ∧ item.completed = false →
           item'.completed_at = some now) ∧
        (pyTruthy (dGetJ data "completed") = true ∧ item.completed = true →
           item'.completed_at = item.completed_at) ∧
        (pyTruthy (dGetJ data "completed") = false →
           item'.completed_at = none)))) := by
  intro item now data item' h
  unfold updateItemFields at h
  obtain ⟨i1, h1, h⟩ := ebind_ok_iff.mp h
  obtain ⟨i2, h2, h⟩ := ebind_ok_iff.mp h
  obtain ⟨i3, h3, h⟩ := ebind_ok_iff.mp h
  obtain ⟨i4, h4, h⟩ := ebind_ok_iff.mp h
  obtain ⟨i5, h5, h⟩ := ebind_ok_iff.mp h
  obtain ⟨i6, h6, h7⟩ := ebind_ok_iff.mp h
  have s1 : i1.returned = item.returned ∧ i1.returned_at = item.returned_at ∧
      i1.block_quantity = item.block_quantity ∧
      i1.block_returned_at = item.block_returned_at ∧
      i1.slide_quantity = item.slide_quantity ∧
      i1.slide_returned_at = item.slide_returned_at ∧
      i1.completed = item.completed ∧ i1.completed_at = item.completed_at := by
    obtain ⟨q, rfl⟩ := applyQuantity_shape h1
    exact ⟨rfl, rfl, rfl, rfl, rfl, rfl, rfl, rfl⟩
  obtain ⟨s1r, s1ra, s1bq, s1ba, s1sq, s1sa, s1c, s1ca⟩ := s1
  have s2 : i2.block_quantity = i1.block_quantity ∧
      i2.block_returned_at = i1.block_returned_at ∧
      i2.slide_quantity = i1.slide_quantity ∧
      i2.slide_returned_at = i1.slide_returned_at ∧
      i2.completed = i1.completed ∧ i2.completed_at = i1.completed_at := by
    obtain ⟨b, t, rfl⟩ := applyReturned_shape h2
    exact ⟨rfl, rfl, rfl, rfl, rfl, rfl⟩
  obtain ⟨s2bq, s2ba, s2sq, s2sa, s2c, s2ca⟩ := s2
  have s3 : i3.returned = i2.returned ∧ i3.returned_at = i2.returned_at ∧
      i3.slide_quantity = i2.slide_quantity ∧
      i3.slide_returned_at = i2.slide_returned_at ∧
      i3.completed = i2.completed ∧ i3.completed_at = i2.completed_at := by
    obtain ⟨q, t, rfl⟩ := applyBlockQuantity_shape h3
    exact ⟨rfl, rfl, rfl, rfl, rfl, rfl⟩
  obtain ⟨s3r, s3ra, s3sq, s3sa, s3c, s3ca⟩ := s3
  have s4 : i4.returned = i3.returned ∧ i4.returned_at = i3.returned_at ∧
      i4.block_quantity = i3.block_quantity ∧
      i4.block_returned_at = i3.block_returned_at ∧
      i4.completed = i3.completed ∧ i4.completed_at = i3.completed_at := by
    obtain ⟨q, t, rfl⟩ := applySlideQuantity_shape h4
    exact ⟨rfl, rfl, rfl, rfl, rfl, rfl⟩
  obtain ⟨s4r, s4ra, s4bq, s4ba, s4c, s4ca⟩ := s4
  have s5 : i5.returned = i4.returned ∧ i5.returned_at = i4.returned_at ∧
      i5.block_quantity = i4.block_quantity ∧
      i5.block_returned_at = i4.block_returned_at ∧
      i5.slide_quantity = i4.slide_quantity ∧
      i5.slide_returned_at = i4.slide_returned_at ∧
      i5.completed = i4.completed ∧ i5.completed_at = i4.completed_at := by
    obtain ⟨n, rfl⟩ := applyNotes_shape h5
    exact ⟨rfl, rfl, rfl, rfl, rfl, rfl, rfl, rfl⟩
  obtain ⟨s5r, s5ra, s5bq, s5ba, s5sq, s5sa, s5c, s5ca⟩ := s5
  have s6 : i6.returned = i5.returned ∧ i6.returned_at = i5.returned_at ∧
      i6.block_quantity = i5.block_quantity ∧
      i6.block_returned_at = i5.block_returned_at ∧
      i6.slide_quantity = i5.slide_quantity ∧
      i6.slide_returned_at = i5.slide_returned_at ∧
      i6.completed = i5.completed ∧ i6.completed_at = i5.completed_at := by
    obtain ⟨e, rfl⟩ := applyExpectedReturnDate_shape h6
    exact ⟨rfl, rfl, rfl, rfl, rfl, rfl, rfl, rfl⟩
  obtain ⟨s6r, s6ra, s6bq, s6ba, s6sq, s6sa, s6c, s6ca⟩ := s6
  have s7 : item'.returned = i6.returned ∧ item'.returned_at = i6.returned_at ∧
      item'.block_quantity = i6.block_quantity ∧
      item'.block_returned_at = i6.block_returned_at ∧
      item'.slide_quantity = i6.slide_quantity ∧
      item'.slide_returned_at = i6.slide_returned_at := by
    obtain ⟨b, t, rfl⟩ := applyCompleted_shape h7
    exact ⟨rfl, rfl, rfl, rfl, rfl, rfl⟩
  obtain ⟨s7r, s7ra, s7bq, s7ba, s7sq, s7sa⟩ := s7
  have outRA : item'.returned_at = i2.returned_at := by
    rw [s7ra, s6ra, s5ra, s4ra, s3ra]
  have outBA : item'.block_returned_at = i3.block_returned_at := by
    rw [s7ba, s6ba, s5ba, s4ba]
  have outSA : item'.slide_returned_at = i4.slide_returned_at := by
    rw [s7sa, s6sa, s5sa]
  have inBQ : i2.block_quantity = item.block_quantity := by rw [s2bq, s1bq]
  have inBA : i2.block_returned_at = item.block_returned_at := by
    rw [s2ba, s1ba]
  have inSQ : i3.slide_quantity = item.slide_quantity := by
    rw [s3sq, s2sq, s1sq]
  have inSA : i3.slide_returned_at = item.slide_returned_at := by
    rw [s3sa, s2sa, s1sa]
  have inC : i6.completed = item.completed := by
    rw [s6c, s5c, s4c, s3c, s2c, s1c]
  have inCA : i6.completed_at = item.completed_at := by
    rw [s6ca, s5ca, s4ca, s3ca, s2ca, s1ca]
  refine ⟨⟨?_, ?_⟩, ⟨?_, ?_⟩, ⟨?_, ?_⟩, ⟨?_, ?_⟩⟩
  · intro hne
    rw [applyReturned_absent hne] at h2
    have hi : i1 = i2 := by simpa using h2
    rw [outRA, ← hi, s1ra]
  · intro hhas
    rw [applyReturned_present hhas] at h2
    have hi : setReturned now (pyTruthy (dGetJ data "returned")) i1 = i2 := by
      simpa using h2
    obtain ⟨t1, t2, t3, -⟩ :=
      setReturned_ts now (pyTruthy (dGetJ data "returned")) i1
    refine ⟨?_, ?_, ?_⟩
    · rintro ⟨hv, hret⟩
      rw [outRA, ← hi, t1 ⟨hv, by rw [s1r]; exact hret⟩]
    · rintro ⟨hv, hret⟩
      rw [outRA, ← hi, t2 ⟨hv, by rw [s1r]; exact hret⟩, s1ra]
    · intro hv
      rw [outRA, ← hi, t3 hv]
  · intro hne
    rw [applyBlockQuantity_absent hne] at h3
    have hi : i2 = i3 := by simpa using h3
    rw [outBA, ← hi, inBA]
  · intro nq hhas hnq
    rw [applyBlockQuantity_present hhas hnq] at h3
    have hi : setBlock now nq i2 = i3 := by simpa using h3
    obtain ⟨t1, t2, t3, -⟩ := setBlock_ts now nq i2
    refine ⟨?_, ?_, ?_⟩
    · rintro ⟨hv, hbq⟩
      rw [outBA, ← hi, t1 ⟨hv, by rw [inBQ]; exact hbq⟩]
    · rintro ⟨hv, hbq⟩
      rw [outBA, ← hi, t2 ⟨hv, by rw [inBQ]; exact hbq⟩, inBA]
    · intro hv
      rw [outBA, ← hi, t3 hv]
  · intro hne
    rw [applySlideQuantity_absent hne] at h4
    have hi : i3 = i4 := by simpa using h4
    rw [outSA, ← hi, inSA]
  · intro nq hhas hnq
    rw [applySlideQuantity_present hhas hnq] at h4
    have hi : setSlide now nq i3 = i4 := by simpa using h4
    obtain ⟨t1, t2, t3, -⟩ := setSlide_ts now nq i3
    refine ⟨?_, ?_, ?_⟩
    · rintro ⟨hv, hsq⟩
      rw [outSA, ← hi, t1 ⟨hv, by rw [inSQ]; exact hsq⟩]
    · rintro ⟨hv, hsq⟩
      rw [outSA, ← hi, t2 ⟨hv, by rw [inSQ]; exact hsq⟩, inSA]
    · intro hv
      rw [outSA, ← hi, t3 hv]
  · intro hne
    rw [applyCompleted_absent hne] at h7
    have hi : i6 = item' := by simpa using h7
    rw [← hi, inCA]
  · intro hhas
    rw [applyCompleted_present hhas] at h7
    have hi : setCompleted now (pyTruthy (dGetJ data "completed")) i6 = item' := by
      simpa using h7
    obtain ⟨t1, t2, t3, -⟩ :=
      setCompleted_ts now (pyTruthy (dGetJ data "completed")) i6
    refine ⟨?_, ?_, ?_⟩
    · rintro ⟨hv, hc⟩
      rw [← hi, t1 ⟨hv, by rw [inC]; exact hc⟩]
    · rintro ⟨hv, hc⟩
      rw [← hi, t2 ⟨hv, by rw [inC]; exact hc⟩, inCA]
    · intro hv
      rw [← hi, t3 hv]

/-- C2 witness: a payload activating all four aspects on an inactive
record stamps each paired timestamp with the current time. -/
theorem claim_C2_witness :
    updWitnessOut.returned_at = some 5 ∧
    updWitnessOut.block_returned_at = some 5 ∧
    updWitnessOut.slide_returned_at = some 5 ∧
    updWitnessOut.completed_at = some 5 := by
  have h := claim_C2_update_transitions updWitnessItem 5 updWitnessData
    updWitnessOut (by rfl)
  refine ⟨?_, ?_, ?_, ?_⟩
  · exact (h.1.2 (by rfl)).1 ⟨by rfl, by rfl⟩
  · exact ((h.2.1.2) 2 (by rfl) (by rfl)).1 ⟨by decide, by rfl⟩
  · exact ((h.2.2.1.2) 3 (by rfl) (by rfl)).1 ⟨by decide, by rfl⟩
  · exact (h.2.2.2.2 (by rfl)).1 ⟨by rfl, by rfl⟩

/-- C3 (code bug). The `expected_return_date` block of `update_item`
sits outside the handler `try/except ValidationError` block, so a malformed
date string makes `datetime.fromisoformat` raise a `ValueError` that
escapes the handler as an unhandled fault (HTTP 500) instead of being
translated to a `ValidationError` of the taxonomy. An empty value clears
the column and a well-formed date is applied, as the claim says; only the
malformed-string case crashes. -/
theorem claim_C3_expected_return_date_fault :
    update_item oneItemDB 1 1 200
        [("expected_return_date", JVal.str "not a date")] =
      .error (.pyFault "ValueError") ∧
    ((update_item oneItemDB 1 1 200
        [("expected_return_date", JVal.str "")]).map
      (fun p => p.2.expected_return_date)) = .ok none ∧
    ((update_item oneItemDB 1 1 200
        [("expected_return_date", JVal.str "2024-01-02")]).map
      (fun p => p.2.expected_return_date)) =
        .ok (fromisoformat "2024-01-02") ∧
    (fromisoformat "2024-01-02").isSome = true := by
  exact ⟨rfl, rfl, rfl, rfl⟩

/-- C4 (confirmed). `history` always excludes soft-deleted rows, the
`incomplete` filter serves exactly records with `completed = false`, the
`oldest` sort orders the served page by ascending scan time, and on the
three-record scenario (t1 < t2 < t3, only t2 completed) the query returns
exactly the t1 and t3 records in that order. -/
theorem claim_C4_history_filter_sort :
    (∀ db now ft s sort page pp r,
       r ∈ (history db now ft s sort page pp).items → r.deleted_at = none) ∧
    (∀ db now s sort page pp r,
       r ∈ (history db now "incomplete" s sort page pp).items →
         r.completed = false) ∧
    (∀ db now ft s page pp,
       ((history db now ft s "oldest" page pp).items).Pairwise oldestLe) ∧
    (history threeDB 1000 "incomplete" "" "oldest" 1 50).items =
      [mkRecord 1 100 false, mkRecord 3 300 false] := by
  refine ⟨?_, ?_, ?_, ?_⟩
  · intro db now ft s sort page pp r hr
    exact (history_mem_inv hr).2
  · intro db now s sort page pp r hr
    exact history_incomplete_mem hr
  · intro db now ft s page pp
    exact history_oldest_sorted db now ft s page pp
  · rfl

/-- C4 witness: the generic parts instantiated on the t1 record of the
concrete three-record scenario. -/
theorem claim_C4_witness :
    (mkRecord 1 100 false).deleted_at = none ∧
    (mkRecord 1 100 false).completed = false ∧
    ((history threeDB 1000 "incomplete" "" "oldest" 1 50).items).Pairwise
      oldestLe := by
  have hm : mkRecord 1 100 false ∈
      (history threeDB 1000 "incomplete" "" "oldest" 1 50).items := by
    rw [claim_C4_history_filter_sort.2.2.2]
    exact List.mem_cons_self _ _
  exact ⟨claim_C4_history_filter_sort.1 threeDB 1000 "incomplete" "" "oldest"
      1 50 _ hm,
    claim_C4_history_filter_sort.2.1 threeDB 1000 "" "oldest" 1 50 _ hm,
    claim_C4_history_filter_sort.2.2.1 threeDB 1000 "incomplete" "" 1 50⟩

/-- C5 (amended). Each of `scan`, `update_item`, `delete_item`,
`create_user` and `update_user` appends exactly one audit entry per
successful mutation, with the snapshot shape the claim describes (new-only
for CREATE, both for UPDATE, old-only for item DELETE); but — contrary to
the claim — user creation from the login screen (`register_user`) persists
a new user while appending no audit entry (see the counterexample). -/
theorem claim_C5_audit_per_mutation :
    (∀ db uid now body db' item, scan db uid now body = .ok (db', item) →
      db'.audits = db.audits ++
        [⟨"CREATE", "item_logs", item.id, some uid, none,
          some (.item item)⟩]) ∧
    (∀ db uid itemId now body db' item',
      update_item db uid itemId now body = .ok (db', item') →
      ∃ item : ItemLog, db'.audits = db.audits ++
        [⟨"UPDATE", "item_logs", item.id, some uid, some (.item item),
          some (.item item')⟩]) ∧
    (∀ db uid itemId now db', delete_item db uid itemId now = .ok db' →
      ∃ item : ItemLog, db'.audits = db.audits ++
        [⟨"DELETE", "item_logs", item.id, some uid, some (.item item),
          none⟩]) ∧
    (∀ db callerId now body db' u, create_user db callerId now body = .ok (db', u) →
      db'.audits = db.audits ++
        [⟨"CREATE", "users", u.id, callerId, none, some (.user u.to_dict)⟩]) ∧
    (∀ db callerId userId body db' u',
      update_user db callerId userId body = .ok (db', u') →
      ∃ user : UserRec, db'.audits = db.audits ++
        [⟨"UPDATE", "users", user.id, callerId, some (.user user.to_dict),
          some (.user u'.to_dict)⟩]) ∧
    (∀ db now body db' u, register_user db now body = .ok (db', u) →
      db'.users = db.users ++ [u] ∧ db'.audits = db.audits) := by
  refine ⟨?_, ?_, ?_, ?_, ?_, ?_⟩
  · intro db uid now body db' item h
    exact (scan_ok_inv h).2.2.1
  · intro db uid itemId now body db' item' h
    obtain ⟨item, -, -, -, -, ha⟩ := update_item_ok_inv h
    exact ⟨item, ha⟩
  · intro db uid itemId now db' h
    obtain ⟨item, -, -, -, ha⟩ := delete_item_ok_inv h
    exact ⟨item, ha⟩
  · intro db callerId now body db' u h
    exact (create_user_ok_inv h).2.2
  · intro db callerId userId body db' u' h
    obtain ⟨user, -, -, -, ha⟩ := update_user_ok_inv h
    exact ⟨user, ha⟩
  · intro db now body db' u h
    exact ⟨(register_user_ok_inv h).1, (register_user_ok_inv h).2.1⟩

/-- C5 counterexample: registering a user from the login screen
mutates the user table (1 user becomes 2) while the audit trail stays
empty — the mutation produces zero audit entries, not exactly one. -/
theorem claim_C5_counterexample :
    ((register_user baseDB 5 [("name", JVal.str "yuki")]).map
      (fun p => (p.1.users.length, p.1.audits.length, p.2.name))) =
        .ok (2, 0, "yuki") ∧
    baseDB.users.length = 1 ∧ baseDB.audits = [] := by
  exact ⟨rfl, rfl, rfl⟩

/-- C5 witness: the CREATE-audit guarantee instantiated on a concrete
scan. -/
theorem claim_C5_witness :
    scanResultDB.audits = baseDB.audits ++
      [⟨"CREATE", "item_logs", scannedItem.id, some 1, none,
        some (.item scannedItem)⟩] := by
  exact claim_C5_audit_per_mutation.1 baseDB 1 100
    [("barcode", JVal.str "A1")] scanResultDB scannedItem (by rfl)

/-- C6 (amended). A freshly scanned record always has `quantity ≥ 1`
(`createItem(quantity=0)` fails, `createItem(quantity=1)` succeeds) and
`updateItem` rejects a negative quantity with a `ValidationError` leaving
the stored record unchanged; but the `quantity ≥ 1` invariant is not
maintained by updates: `update_item` validates quantity against the shared
floor of 0 and has no `>= 1` check, so `updateItem(id, quantity=0)`
succeeds and drives the record to `quantity = 0` (see the counterexample).
Updates do preserve `quantity ≥ 0`. -/
theorem claim_C6_quantity_floor :
    (∀ db uid now body db' item, scan db uid now body = .ok (db', item) →
      1 ≤ item.quantity) ∧
    (∀ db uid now body, dGet body "quantity" = some (JVal.int 0) →
      ∀ x, scan db uid now body ≠ .ok x) ∧
    ((scan baseDB 1 100 [("barcode", JVal.str "A1"), ("quantity", JVal.int 1)]).map
      (fun p => p.2.quantity) = .ok 1) ∧
    (∀ db uid itemId now item, findItem db.items itemId = some item →
      update_item db uid itemId now [("quantity", JVal.int (-1))] =
        .error (.validation "個数は0以上で入力してください")) ∧
    (∀ item now data item', updateItemFields item now data = .ok item' →
      0 ≤ item.quantity → 0 ≤ item'.quantity) := by
  refine ⟨?_, ?_, rfl, ?_, ?_⟩
  · intro db uid now body db' item h
    exact (scan_ok_inv h).2.2.2.2.2.2.2.2.1
  · intro db uid now body hq0 x hok
    obtain ⟨db', item⟩ := x
    have hinv := scan_ok_inv hok
    have hge : 1 ≤ item.quantity := hinv.2.2.2.2.2.2.2.2.1
    have hv := hinv.2.2.2.2.2.2.2.2.2.2.2.2.2
    have hd : dGetD (sanitize_input body) "quantity" (JVal.int 1) = JVal.int 0 := by
      simp [dGetD, dGet_sanitize, hq0, sanVal]
    rw [hd] at hv
    have : (0 : Int) = item.quantity := by simpa [validate_quantity, validate_integer, pyInt] using hv
    omega
  · intro db uid itemId now item hfind
    unfold update_item
    rw [hfind]
    rfl
  · intro item now data item' h h0
    unfold updateItemFields at h
    obtain ⟨i1, h1, h⟩ := ebind_ok_iff.mp h
    obtain ⟨i2, h2, h⟩ := ebind_ok_iff.mp h
    obtain ⟨i3, h3, h⟩ := ebind_ok_iff.mp h
    obtain ⟨i4, h4, h⟩ := ebind_ok_iff.mp h
    obtain ⟨i5, h5, h⟩ := ebind_ok_iff.mp h
    obtain ⟨i6, h6, h7⟩ := ebind_ok_iff.mp h
    have hq1 : 0 ≤ i1.quantity := by
      unfold applyQuantity at h1
      split at h1
      · split at h1
        · simp at h1
        · rename_i q hv
          obtain rfl : ({ item with quantity := q } : ItemLog) = i1 := by
            simpa using h1
          exact validate_quantity_nonneg (by norm_num) hv
      · obtain rfl : item = i1 := by simpa using h1
        exact h0
    have e2 : i2.quantity = i1.quantity := by
      obtain ⟨b, t, rfl⟩ := applyReturned_shape h2
      rfl
    have e3 : i3.quantity = i2.quantity := by
      obtain ⟨q, t, rfl⟩ := applyBlockQuantity_shape h3
      rfl
    have e4 : i4.quantity = i3.quantity := by
      obtain ⟨q, t, rfl⟩ := applySlideQuantity_shape h4
      rfl
    have e5 : i5.quantity = i4.quantity := by
      obtain ⟨n, rfl⟩ := applyNotes_shape h5
      rfl
    have e6 : i6.quantity = i5.quantity := by
      obtain ⟨e, rfl⟩ := applyExpectedReturnDate_shape h6
      rfl
    have e7 : item'.quantity = i6.quantity := by
      obtain ⟨b, t, rfl⟩ := applyCompleted_shape h7
      rfl
    rw [e7, e6, e5, e4, e3, e2]
    exact hq1

/-- C6 counterexample: a record created with quantity 1 and then
updated with `quantity = 0` ends with `quantity = 0` — the claimed
`quantity ≥ 1` invariant over createItem/updateItem sequences fails. -/
theorem claim_C6_counterexample :
    (((scan baseDB 1 100 [("barcode", JVal.str "A1")]).bind
        (fun p => update_item p.1 1 1 200 [("quantity", JVal.int 0)])).map
      (fun p => p.2.quantity)) = .ok 0 := by
  rfl

/-- C6 witness: the proved parts instantiated on concrete inputs. -/
theorem claim_C6_witness :
    1 ≤ scannedItem.quantity ∧
    scan baseDB 1 100 [("barcode", JVal.str "A1"), ("quantity", JVal.int 0)] ≠
      .ok (scanResultDB, scannedItem) ∧
    update_item scanResultDB 1 1 200 [("quantity", JVal.int (-1))] =
      .error (.validation "個数は0以上で入力してください") ∧
    0 ≤ updWitnessOut.quantity := by
  refine ⟨?_, ?_, ?_, ?_⟩
  · exact claim_C6_quantity_floor.1 baseDB 1 100 [("barcode", JVal.str "A1")]
      scanResultDB scannedItem (by rfl)
  · exact claim_C6_quantity_floor.2.1 baseDB 1 100
      [("barcode", JVal.str "A1"), ("quantity", JVal.int 0)] (by rfl)
      (scanResultDB, scannedItem)
  · exact claim_C6_quantity_floor.2.2.2.1 scanResultDB 1 1 200 scannedItem
      (by rfl)
  · exact claim_C6_quantity_floor.2.2.2.2 updWitnessItem 5 updWitnessData
      updWitnessOut (by rfl) (by decide)

/-- C7 (code bug). The last-admin protection does not hold on the
code. First, the first statement of the `delete_user` handler reads
`current_user`, a name defined nowhere in `app.py` (`flask_login` is not
imported), so every call — including a last-admin deletion attempt —
raises an unhandled `NameError` (HTTP 500) rather than returning the
claimed `AuthorizationError`, and no deletion can ever succeed. Second,
`update_user` applies `is_active = false` with no last-admin guard, so the
last active admin can be deactivated: starting from exactly one active
admin, the update leaves zero. -/
theorem claim_C7_last_admin_unprotected :
    countActiveAdmins twoUserDB = 1 ∧
    delete_user twoUserDB 2 1 = .error (.pyFault "NameError") ∧
    ((update_user twoUserDB (some 1) 1 [("is_active", JVal.bool false)]).map
      (fun p => countActiveAdmins p.1)) = .ok 0 := by
  exact ⟨rfl, rfl, rfl⟩

/-- C8 (confirmed). `delete_item` fails `NotFound` when no record with
the given id exists; on an existing record it succeeds and the stored row
becomes exactly the old record with only `deleted_at` set to the current
time — every other field is unchanged. -/
theorem claim_C8_soft_delete_frame :
    ∀ db uid itemId now,
      (findItem db.items itemId = none →
        delete_item db uid itemId now = .error .notFound) ∧
      (∀ item, findItem db.items itemId = some item →
        ∃ db', delete_item db uid itemId now = .ok db' ∧
          findItem db'.items itemId =
            some { item with deleted_at := some now }) := by
  intro db uid itemId now
  constructor
  · intro hnone
    unfold delete_item
    rw [hnone]
  · intro item hfind
    have hdel : delete_item db uid itemId now =
        .ok (create_audit_log
          { db with
            items := replaceItem db.items itemId
              { item with deleted_at := some now } }
          (some uid) "DELETE" "item_logs" item.id (some (.item item)) none) := by
      unfold delete_item
      rw [hfind]
    refine ⟨_, hdel, ?_⟩
    have hid : (({ item with deleted_at := some now } : ItemLog).id == itemId) = true := by
      have := id_of_findItem hfind
      simpa using this
    exact findItem_replaceItem hid hfind

/-- C8 witness: both branches instantiated — a missing id yields
`NotFound`, and deleting the one stored record leaves it intact except for
`deleted_at`. -/
theorem claim_C8_witness :
    delete_item baseDB 9 1 5 = .error .notFound ∧
    findItem deletedDB.items 1 = some { scannedItem with deleted_at := some 777 } := by
  constructor
  · exact (claim_C8_soft_delete_frame baseDB 9 1 5).1 (by rfl)
  · obtain ⟨db2, h1, h2⟩ :=
      (claim_C8_soft_delete_frame scanResultDB 1 1 777).2 scannedItem (by rfl)
    have h3 : delete_item scanResultDB 1 1 777 = .ok deletedDB := by rfl
    rw [h1] at h3
    have heq : db2 = deletedDB := by simpa using h3
    rw [← heq]
    exact h2

/-- C9 (amended). The barcode and patient-id validators strip every
ASCII control character (0x00–0x1F and 0x7F) from the validated value, as
claimed. The notes validator strips the same set except TAB (0x09), LF
(0x0A) and CR (0x0D), which are preserved: besides the newline family, the
TAB character — a control character that is not a newline — also survives
notes validation (see the counterexample), and no control character other
than these three survives. -/
theorem claim_C9_control_char_stripping :
    (∀ v req s, validate_barcode v req = .ok (some s) →
      ∀ c ∈ s.data, isCtrlAll c = false) ∧
    (∀ v s, validate_patient_id v = .ok (some s) →
      ∀ c ∈ s.data, isCtrlAll c = false) ∧
    (∀ v s, validate_notes v = .ok (some s) →
      ∀ c ∈ s.data, isCtrlAll c = true →
        (c.toNat = 0x09 ∨ c.toNat = 0x0a ∨ c.toNat = 0x0d)) := by
  refine ⟨?_, ?_, ?_⟩
  · intro v req s h c hc
    unfold validate_barcode at h
    split at h
    · simp at h
    · simp at h
    · rename_i s0 hs0
      obtain rfl : stripChars isCtrlAll s0 = s := by simpa using h
      have := List.of_mem_filter hc
      simpa using this
  · intro v s h c hc
    unfold validate_patient_id at h
    split at h
    · simp at h
    · simp at h
    · rename_i s0 hs0
      obtain rfl : stripChars isCtrlAll s0 = s := by simpa using h
      have := List.of_mem_filter hc
      simpa using this
  · intro v s h c hc hall
    unfold validate_notes at h
    split at h
    · simp at h
    · simp at h
    · rename_i s0 hs0
      obtain rfl : stripChars isCtrlNotes s0 = s := by simpa using h
      have hker := List.of_mem_filter hc
      have hnotes : isCtrlNotes c = false := by simpa using hker
      unfold isCtrlAll at hall
      unfold isCtrlNotes at hnotes
      simp only [Bool.or_eq_true, Bool.and_eq_true, decide_eq_true_eq] at hall
      simp only [Bool.or_eq_false_iff, Bool.and_eq_false_iff,
        decide_eq_false_iff_not, not_le, not_lt] at hnotes
      omega

/-- C9 counterexample: the TAB character (0x09) is an ASCII control
character that is not in the newline/line-feed family, yet it survives
notes validation unchanged. -/
theorem claim_C9_counterexample :
    validate_notes (JVal.str "a\x09b") = .ok (some "a\x09b") ∧
    isCtrlAll '\x09' = true ∧
    ('\x09' : Char).toNat ≠ 0x0a ∧ ('\x09' : Char).toNat ≠ 0x0d := by
  exact ⟨rfl, rfl, by decide, by decide⟩

/-- C9 witness: the stripping guarantees instantiated on concrete
inputs — a barcode keeps no control character, and the LF preserved by
notes validation is one of the three whitelisted control characters. -/
theorem claim_C9_witness :
    isCtrlAll 'A' = false ∧
    (('\x0a' : Char).toNat = 0x09 ∨ ('\x0a' : Char).toNat = 0x0a ∨
      ('\x0a' : Char).toNat = 0x0d) := by
  constructor
  · exact claim_C9_control_char_stripping.1 (JVal.str "A\x01B") false "AB"
      (by rfl) 'A' (by decide)
  · exact claim_C9_control_char_stripping.2.2 (JVal.str "x\x0ay") "x\x0ay"
      (by rfl) '\x0a' (by decide) (by rfl)

/-- C10 (confirmed). For every non-empty search term, the selection of the CSV export contains a non-deleted record iff the term is a substring of its
barcode or of its notes; a record matched only through its patient id is
served by `history` but excluded from the CSV selection. -/
theorem claim_C10_export_search :
    (∀ db now search r, pyStrip search ≠ "" →
      (r ∈ export_csv_items db now "all" search ↔
        r ∈ db.items ∧ r.deleted_at = none ∧
          exportSearchPred (pyStrip search) r = true)) ∧
    patientOnlyRecord ∈
      (history patientOnlyDB 1000 "all" "X123" "newest" 1 50).items ∧
    patientOnlyRecord ∉ export_csv_items patientOnlyDB 1000 "all" "X123" ∧
    optContains patientOnlyRecord.patient_id "X123" = true ∧
    exportSearchPred "X123" patientOnlyRecord = false := by
  refine ⟨?_, ?_, ?_, ?_, ?_⟩
  · intro db now search r hs
    exact mem_export_csv_items_all hs
  · have he : (history patientOnlyDB 1000 "all" "X123" "newest" 1 50).items =
        [patientOnlyRecord] := by rfl
    rw [he]
    exact List.mem_singleton_self _
  · have he : export_csv_items patientOnlyDB 1000 "all" "X123" = [] := by rfl
    rw [he]
    exact List.not_mem_nil _
  · rfl
  · rfl

/-- C10 witness: the selection characterization instantiated on the
patient-id-only record — it fails the two-column search predicate, so it
is not exported. -/
theorem claim_C10_witness :
    patientOnlyRecord ∉ export_csv_items patientOnlyDB 2000 "all" "X123" := by
  intro hmem
  have h := (claim_C10_export_search.1 patientOnlyDB 2000 "X123"
    patientOnlyRecord (by decide)).mp hmem
  have hf : exportSearchPred (pyStrip "X123") patientOnlyRecord = false := by rfl
  exact absurd h.2.2 (by simp [hf])

end PathoRecord

